import Mathlib

/-!
# Verification of the TravelBuddy AI heuristics

A shallow embedding of the deterministic parts of the
`KrutrimaMedha/travelbuddy-ai` repository:

* `calculate_minimum_duration` and `get_feasible_durations`
  (`travel_planner_ui/server/main.py`),
* `PersonalizedTripPlanner.validate_budget`, `validate_duration`,
  `generate_personalized_itinerary` and `_create_fallback_itinerary`
  (`travel_planner_agent/src/travel_planner_agent/travel_planning_agent.py`),
* `TravelPlanningTool._parse_distance` and `_parse_duration`
  (`travel_planner_agent/src/travel_planner_agent/travel_planning_tool.py`),
* the saved-trips endpoints and
  `transform_backend_response_to_frontend_format`
  (`travel_planner_ui/server/main.py`).

Python `dict` literals become association lists, Python numbers become
`Nat`/`Int`/`ℚ` (all the arithmetic involved is exact on the rationals),
Python string operations become `String` operations on their ASCII
fragment, and the nondeterministic inputs (`datetime.now()`, the Gemini
LLM round trip) become explicit parameters.
-/

namespace TravelBuddy

/-! ## Python `dict` access as association lists -/

/-- `d.get(k)` on a Python dict embedded as an association list
(keys are unique in every dict we embed, so first match = the entry). -/
def dictGet {α : Type} : List (String × α) → String → Option α
  | [], _ => none
  | (k, v) :: rest, key => if k = key then some v else dictGet rest key

/-- `d.get(k, default)`. -/
def dictGetD {α : Type} (l : List (String × α)) (key : String) (d : α) : α :=
  (dictGet l key).getD d

/-- Python `str.lower()` (ASCII fragment — every string the code lowers
is ASCII). -/
def pyLower (s : String) : String :=
  String.mk (s.data.map Char.toLower)

/-! ## The distance table and `calculate_minimum_duration` -/

/-- The hardcoded inter-location road-distance table (km) from
`calculate_minimum_duration` in `travel_planner_ui/server/main.py`,
embedded as an association list (all keys are distinct in the source). -/
def distances : List (String × List (String × Nat)) := [
  ("kerala", [("tamil nadu", 650), ("karnataka", 350), ("andhra pradesh", 700), ("telangana", 800),
    ("goa", 600), ("mumbai", 1200), ("maharashtra", 1200), ("gujarat", 1500), ("rajasthan", 1800),
    ("delhi", 2200), ("haryana", 2200), ("punjab", 2300), ("uttarakhand", 2000),
    ("himachal pradesh", 2100), ("kashmir", 2500), ("uttar pradesh", 2000), ("madhya pradesh", 1400),
    ("chhattisgarh", 1300), ("jharkhand", 1800), ("bihar", 1900), ("west bengal", 1900),
    ("odisha", 1200), ("assam", 2400), ("meghalaya", 2400), ("sikkim", 2200),
    ("arunachal pradesh", 2600), ("nagaland", 2500), ("manipur", 2500), ("mizoram", 2400),
    ("tripura", 2300)]),
  ("tamil nadu", [("kerala", 650), ("karnataka", 350), ("andhra pradesh", 450), ("telangana", 600),
    ("goa", 900), ("mumbai", 1100), ("maharashtra", 1000), ("gujarat", 1300), ("rajasthan", 1800),
    ("delhi", 2200), ("haryana", 2200), ("punjab", 2300), ("uttarakhand", 2400),
    ("himachal pradesh", 2500), ("kashmir", 2700), ("uttar pradesh", 2100), ("madhya pradesh", 1300),
    ("chhattisgarh", 1100), ("jharkhand", 1600), ("bihar", 1700), ("west bengal", 1600),
    ("odisha", 900), ("assam", 2200), ("meghalaya", 2200), ("sikkim", 2000),
    ("arunachal pradesh", 2400), ("nagaland", 2300), ("manipur", 2300), ("mizoram", 2200),
    ("tripura", 2100), ("chennai", 100), ("bangalore", 350)]),
  ("karnataka", [("kerala", 350), ("tamil nadu", 350), ("andhra pradesh", 500), ("telangana", 600),
    ("goa", 560), ("mumbai", 980), ("maharashtra", 800), ("gujarat", 1100), ("rajasthan", 1600),
    ("delhi", 2100), ("haryana", 2100), ("punjab", 2200), ("uttarakhand", 2300),
    ("himachal pradesh", 2400), ("kashmir", 2600), ("uttar pradesh", 1900), ("madhya pradesh", 1100),
    ("chhattisgarh", 900), ("jharkhand", 1400), ("bihar", 1500), ("west bengal", 1400),
    ("odisha", 700), ("assam", 2000), ("meghalaya", 2000), ("sikkim", 1800),
    ("arunachal pradesh", 2200), ("nagaland", 2100), ("manipur", 2100), ("mizoram", 2000),
    ("tripura", 1900), ("bangalore", 50), ("chennai", 350)]),
  ("andhra pradesh", [("kerala", 700), ("tamil nadu", 450), ("karnataka", 500), ("telangana", 200),
    ("goa", 800), ("mumbai", 900), ("maharashtra", 700), ("gujarat", 1000), ("rajasthan", 1500),
    ("delhi", 2000), ("haryana", 2000), ("punjab", 2100), ("uttarakhand", 2200),
    ("himachal pradesh", 2300), ("kashmir", 2500), ("uttar pradesh", 1800), ("madhya pradesh", 1000),
    ("chhattisgarh", 600), ("jharkhand", 1200), ("bihar", 1300), ("west bengal", 1200),
    ("odisha", 500), ("assam", 1800), ("meghalaya", 1800), ("sikkim", 1600),
    ("arunachal pradesh", 2000), ("nagaland", 1900), ("manipur", 1900), ("mizoram", 1800),
    ("tripura", 1700)]),
  ("telangana", [("kerala", 800), ("tamil nadu", 600), ("karnataka", 600), ("andhra pradesh", 200),
    ("goa", 900), ("mumbai", 800), ("maharashtra", 600), ("gujarat", 900), ("rajasthan", 1300),
    ("delhi", 1800), ("haryana", 1800), ("punjab", 1900), ("uttarakhand", 2000),
    ("himachal pradesh", 2100), ("kashmir", 2300), ("uttar pradesh", 1600), ("madhya pradesh", 800),
    ("chhattisgarh", 400), ("jharkhand", 1000), ("bihar", 1100), ("west bengal", 1000),
    ("odisha", 300), ("assam", 1600), ("meghalaya", 1600), ("sikkim", 1400),
    ("arunachal pradesh", 1800), ("nagaland", 1700), ("manipur", 1700), ("mizoram", 1600),
    ("tripura", 1500)]),
  ("goa", [("kerala", 600), ("tamil nadu", 900), ("karnataka", 560), ("andhra pradesh", 800),
    ("telangana", 900), ("mumbai", 450), ("maharashtra", 400), ("gujarat", 700), ("rajasthan", 1200),
    ("delhi", 1800), ("haryana", 1800), ("punjab", 1900), ("uttarakhand", 2000),
    ("himachal pradesh", 2100), ("kashmir", 2200), ("uttar pradesh", 1700), ("madhya pradesh", 1000),
    ("chhattisgarh", 900), ("jharkhand", 1400), ("bihar", 1500), ("west bengal", 1400),
    ("odisha", 700), ("assam", 2000), ("meghalaya", 2000), ("sikkim", 1800),
    ("arunachal pradesh", 2200), ("nagaland", 2100), ("manipur", 2100), ("mizoram", 2000),
    ("tripura", 1900)]),
  ("mumbai", [("kerala", 1200), ("tamil nadu", 1100), ("karnataka", 980), ("andhra pradesh", 900),
    ("telangana", 800), ("goa", 450), ("maharashtra", 200), ("gujarat", 500), ("rajasthan", 800),
    ("delhi", 1400), ("haryana", 1400), ("punjab", 1500), ("uttarakhand", 1600),
    ("himachal pradesh", 1700), ("kashmir", 1800), ("uttar pradesh", 1300), ("madhya pradesh", 600),
    ("chhattisgarh", 700), ("jharkhand", 1200), ("bihar", 1300), ("west bengal", 1300),
    ("odisha", 800), ("assam", 1800), ("meghalaya", 1800), ("sikkim", 1600),
    ("arunachal pradesh", 2000), ("nagaland", 1900), ("manipur", 1900), ("mizoram", 1800),
    ("tripura", 1700)]),
  ("maharashtra", [("kerala", 1200), ("tamil nadu", 1000), ("karnataka", 800), ("andhra pradesh", 700),
    ("telangana", 600), ("goa", 400), ("mumbai", 200), ("gujarat", 400), ("rajasthan", 700),
    ("delhi", 1200), ("haryana", 1200), ("punjab", 1300), ("uttarakhand", 1400),
    ("himachal pradesh", 1500), ("kashmir", 1600), ("uttar pradesh", 1100), ("madhya pradesh", 400),
    ("chhattisgarh", 500), ("jharkhand", 1000), ("bihar", 1100), ("west bengal", 1100),
    ("odisha", 600), ("assam", 1600), ("meghalaya", 1600), ("sikkim", 1400),
    ("arunachal pradesh", 1800), ("nagaland", 1700), ("manipur", 1700), ("mizoram", 1600),
    ("tripura", 1500)]),
  ("gujarat", [("kerala", 1500), ("tamil nadu", 1300), ("karnataka", 1100), ("andhra pradesh", 1000),
    ("telangana", 900), ("goa", 700), ("mumbai", 500), ("maharashtra", 400), ("rajasthan", 400),
    ("delhi", 900), ("haryana", 900), ("punjab", 1000), ("uttarakhand", 1100),
    ("himachal pradesh", 1200), ("kashmir", 1300), ("uttar pradesh", 800), ("madhya pradesh", 600),
    ("chhattisgarh", 800), ("jharkhand", 1200), ("bihar", 1300), ("west bengal", 1400),
    ("odisha", 900), ("assam", 1800), ("meghalaya", 1800), ("sikkim", 1600),
    ("arunachal pradesh", 2000), ("nagaland", 1900), ("manipur", 1900), ("mizoram", 1800),
    ("tripura", 1700)]),
  ("rajasthan", [("kerala", 1800), ("tamil nadu", 1800), ("karnataka", 1600), ("andhra pradesh", 1500),
    ("telangana", 1300), ("goa", 1200), ("mumbai", 800), ("maharashtra", 700), ("gujarat", 400),
    ("delhi", 600), ("haryana", 500), ("punjab", 600), ("uttarakhand", 800), ("himachal pradesh", 900),
    ("kashmir", 1000), ("uttar pradesh", 700), ("madhya pradesh", 700), ("chhattisgarh", 900),
    ("jharkhand", 1200), ("bihar", 1300), ("west bengal", 1400), ("odisha", 1100), ("assam", 1800),
    ("meghalaya", 1800), ("sikkim", 1600), ("arunachal pradesh", 2000), ("nagaland", 1900),
    ("manipur", 1900), ("mizoram", 1800), ("tripura", 1700)]),
  ("delhi", [("kerala", 2200), ("tamil nadu", 2200), ("karnataka", 2100), ("andhra pradesh", 2000),
    ("telangana", 1800), ("goa", 1800), ("mumbai", 1400), ("maharashtra", 1200), ("gujarat", 900),
    ("rajasthan", 600), ("haryana", 50), ("punjab", 300), ("uttarakhand", 300),
    ("himachal pradesh", 350), ("kashmir", 800), ("uttar pradesh", 400), ("madhya pradesh", 800),
    ("chhattisgarh", 1000), ("jharkhand", 1200), ("bihar", 1100), ("west bengal", 1300),
    ("odisha", 1300), ("assam", 1700), ("meghalaya", 1700), ("sikkim", 1500),
    ("arunachal pradesh", 1900), ("nagaland", 1800), ("manipur", 1800), ("mizoram", 1700),
    ("tripura", 1600)]),
  ("haryana", [("kerala", 2200), ("tamil nadu", 2200), ("karnataka", 2100), ("andhra pradesh", 2000),
    ("telangana", 1800), ("goa", 1800), ("mumbai", 1400), ("maharashtra", 1200), ("gujarat", 900),
    ("rajasthan", 500), ("delhi", 50), ("punjab", 250), ("uttarakhand", 250),
    ("himachal pradesh", 300), ("kashmir", 750), ("uttar pradesh", 350), ("madhya pradesh", 750),
    ("chhattisgarh", 950), ("jharkhand", 1150), ("bihar", 1050), ("west bengal", 1250),
    ("odisha", 1250), ("assam", 1650), ("meghalaya", 1650), ("sikkim", 1450),
    ("arunachal pradesh", 1850), ("nagaland", 1750), ("manipur", 1750), ("mizoram", 1650),
    ("tripura", 1550)]),
  ("punjab", [("kerala", 2300), ("tamil nadu", 2300), ("karnataka", 2200), ("andhra pradesh", 2100),
    ("telangana", 1900), ("goa", 1900), ("mumbai", 1500), ("maharashtra", 1300), ("gujarat", 1000),
    ("rajasthan", 600), ("delhi", 300), ("haryana", 250), ("uttarakhand", 400),
    ("himachal pradesh", 200), ("kashmir", 500), ("uttar pradesh", 500), ("madhya pradesh", 900),
    ("chhattisgarh", 1100), ("jharkhand", 1300), ("bihar", 1200), ("west bengal", 1400),
    ("odisha", 1400), ("assam", 1800), ("meghalaya", 1800), ("sikkim", 1600),
    ("arunachal pradesh", 2000), ("nagaland", 1900), ("manipur", 1900), ("mizoram", 1800),
    ("tripura", 1700)]),
  ("uttarakhand", [("kerala", 2000), ("tamil nadu", 2400), ("karnataka", 2300),
    ("andhra pradesh", 2200), ("telangana", 2000), ("goa", 2000), ("mumbai", 1600),
    ("maharashtra", 1400), ("gujarat", 1100), ("rajasthan", 800), ("delhi", 300), ("haryana", 250),
    ("punjab", 400), ("himachal pradesh", 200), ("kashmir", 600), ("uttar pradesh", 200),
    ("madhya pradesh", 700), ("chhattisgarh", 900), ("jharkhand", 1100), ("bihar", 1000),
    ("west bengal", 1200), ("odisha", 1200), ("assam", 1600), ("meghalaya", 1600), ("sikkim", 1400),
    ("arunachal pradesh", 1800), ("nagaland", 1700), ("manipur", 1700), ("mizoram", 1600),
    ("tripura", 1500)]),
  ("himachal pradesh", [("kerala", 2100), ("tamil nadu", 2500), ("karnataka", 2400),
    ("andhra pradesh", 2300), ("telangana", 2100), ("goa", 2100), ("mumbai", 1700),
    ("maharashtra", 1500), ("gujarat", 1200), ("rajasthan", 900), ("delhi", 350), ("haryana", 300),
    ("punjab", 200), ("uttarakhand", 200), ("kashmir", 400), ("uttar pradesh", 400),
    ("madhya pradesh", 800), ("chhattisgarh", 1000), ("jharkhand", 1200), ("bihar", 1100),
    ("west bengal", 1300), ("odisha", 1300), ("assam", 1700), ("meghalaya", 1700), ("sikkim", 1500),
    ("arunachal pradesh", 1900), ("nagaland", 1800), ("manipur", 1800), ("mizoram", 1700),
    ("tripura", 1600)]),
  ("kashmir", [("kerala", 2500), ("tamil nadu", 2700), ("karnataka", 2600), ("andhra pradesh", 2500),
    ("telangana", 2300), ("goa", 2200), ("mumbai", 1800), ("maharashtra", 1600), ("gujarat", 1300),
    ("rajasthan", 1000), ("delhi", 800), ("haryana", 750), ("punjab", 500), ("uttarakhand", 600),
    ("himachal pradesh", 400), ("uttar pradesh", 900), ("madhya pradesh", 1200),
    ("chhattisgarh", 1400), ("jharkhand", 1600), ("bihar", 1500), ("west bengal", 1700),
    ("odisha", 1700), ("assam", 2100), ("meghalaya", 2100), ("sikkim", 1900),
    ("arunachal pradesh", 2300), ("nagaland", 2200), ("manipur", 2200), ("mizoram", 2100),
    ("tripura", 2000)]),
  ("uttar pradesh", [("kerala", 2000), ("tamil nadu", 2100), ("karnataka", 1900),
    ("andhra pradesh", 1800), ("telangana", 1600), ("goa", 1700), ("mumbai", 1300),
    ("maharashtra", 1100), ("gujarat", 800), ("rajasthan", 700), ("delhi", 400), ("haryana", 350),
    ("punjab", 500), ("uttarakhand", 200), ("himachal pradesh", 400), ("kashmir", 900),
    ("madhya pradesh", 500), ("chhattisgarh", 700), ("jharkhand", 900), ("bihar", 800),
    ("west bengal", 1000), ("odisha", 1000), ("assam", 1400), ("meghalaya", 1400), ("sikkim", 1200),
    ("arunachal pradesh", 1600), ("nagaland", 1500), ("manipur", 1500), ("mizoram", 1400),
    ("tripura", 1300)]),
  ("madhya pradesh", [("kerala", 1400), ("tamil nadu", 1300), ("karnataka", 1100),
    ("andhra pradesh", 1000), ("telangana", 800), ("goa", 1000), ("mumbai", 600), ("maharashtra", 400),
    ("gujarat", 600), ("rajasthan", 700), ("delhi", 800), ("haryana", 750), ("punjab", 900),
    ("uttarakhand", 700), ("himachal pradesh", 800), ("kashmir", 1200), ("uttar pradesh", 500),
    ("chhattisgarh", 300), ("jharkhand", 600), ("bihar", 700), ("west bengal", 800), ("odisha", 700),
    ("assam", 1200), ("meghalaya", 1200), ("sikkim", 1000), ("arunachal pradesh", 1400),
    ("nagaland", 1300), ("manipur", 1300), ("mizoram", 1200), ("tripura", 1100)]),
  ("chhattisgarh", [("kerala", 1300), ("tamil nadu", 1100), ("karnataka", 900),
    ("andhra pradesh", 600), ("telangana", 400), ("goa", 900), ("mumbai", 700), ("maharashtra", 500),
    ("gujarat", 800), ("rajasthan", 900), ("delhi", 1000), ("haryana", 950), ("punjab", 1100),
    ("uttarakhand", 900), ("himachal pradesh", 1000), ("kashmir", 1400), ("uttar pradesh", 700),
    ("madhya pradesh", 300), ("jharkhand", 300), ("bihar", 500), ("west bengal", 600), ("odisha", 400),
    ("assam", 1000), ("meghalaya", 1000), ("sikkim", 800), ("arunachal pradesh", 1200),
    ("nagaland", 1100), ("manipur", 1100), ("mizoram", 1000), ("tripura", 900)]),
  ("jharkhand", [("kerala", 1800), ("tamil nadu", 1600), ("karnataka", 1400), ("andhra pradesh", 1200),
    ("telangana", 1000), ("goa", 1400), ("mumbai", 1200), ("maharashtra", 1000), ("gujarat", 1200),
    ("rajasthan", 1200), ("delhi", 1200), ("haryana", 1150), ("punjab", 1300), ("uttarakhand", 1100),
    ("himachal pradesh", 1200), ("kashmir", 1600), ("uttar pradesh", 900), ("madhya pradesh", 600),
    ("chhattisgarh", 300), ("bihar", 200), ("west bengal", 300), ("odisha", 500), ("assam", 700),
    ("meghalaya", 700), ("sikkim", 500), ("arunachal pradesh", 900), ("nagaland", 800),
    ("manipur", 800), ("mizoram", 700), ("tripura", 600)]),
  ("bihar", [("kerala", 1900), ("tamil nadu", 1700), ("karnataka", 1500), ("andhra pradesh", 1300),
    ("telangana", 1100), ("goa", 1500), ("mumbai", 1300), ("maharashtra", 1100), ("gujarat", 1300),
    ("rajasthan", 1300), ("delhi", 1100), ("haryana", 1050), ("punjab", 1200), ("uttarakhand", 1000),
    ("himachal pradesh", 1100), ("kashmir", 1500), ("uttar pradesh", 800), ("madhya pradesh", 700),
    ("chhattisgarh", 500), ("jharkhand", 200), ("west bengal", 400), ("odisha", 600), ("assam", 600),
    ("meghalaya", 600), ("sikkim", 400), ("arunachal pradesh", 800), ("nagaland", 700),
    ("manipur", 700), ("mizoram", 600), ("tripura", 500)]),
  ("west bengal", [("kerala", 1900), ("tamil nadu", 1600), ("karnataka", 1400),
    ("andhra pradesh", 1200), ("telangana", 1000), ("goa", 1400), ("mumbai", 1300),
    ("maharashtra", 1100), ("gujarat", 1400), ("rajasthan", 1400), ("delhi", 1300), ("haryana", 1250),
    ("punjab", 1400), ("uttarakhand", 1200), ("himachal pradesh", 1300), ("kashmir", 1700),
    ("uttar pradesh", 1000), ("madhya pradesh", 800), ("chhattisgarh", 600), ("jharkhand", 300),
    ("bihar", 400), ("odisha", 400), ("assam", 500), ("meghalaya", 400), ("sikkim", 200),
    ("arunachal pradesh", 600), ("nagaland", 500), ("manipur", 500), ("mizoram", 400), ("tripura", 300)]),
  ("odisha", [("kerala", 1200), ("tamil nadu", 900), ("karnataka", 700), ("andhra pradesh", 500),
    ("telangana", 300), ("goa", 700), ("mumbai", 800), ("maharashtra", 600), ("gujarat", 900),
    ("rajasthan", 1100), ("delhi", 1300), ("haryana", 1250), ("punjab", 1400), ("uttarakhand", 1200),
    ("himachal pradesh", 1300), ("kashmir", 1700), ("uttar pradesh", 1000), ("madhya pradesh", 700),
    ("chhattisgarh", 400), ("jharkhand", 500), ("bihar", 600), ("west bengal", 400), ("assam", 600),
    ("meghalaya", 600), ("sikkim", 600), ("arunachal pradesh", 800), ("nagaland", 700),
    ("manipur", 700), ("mizoram", 600), ("tripura", 500)]),
  ("assam", [("kerala", 2400), ("tamil nadu", 2200), ("karnataka", 2000), ("andhra pradesh", 1800),
    ("telangana", 1600), ("goa", 2000), ("mumbai", 1800), ("maharashtra", 1600), ("gujarat", 1800),
    ("rajasthan", 1800), ("delhi", 1700), ("haryana", 1650), ("punjab", 1800), ("uttarakhand", 1600),
    ("himachal pradesh", 1700), ("kashmir", 2100), ("uttar pradesh", 1400), ("madhya pradesh", 1200),
    ("chhattisgarh", 1000), ("jharkhand", 700), ("bihar", 600), ("west bengal", 500), ("odisha", 600),
    ("meghalaya", 100), ("sikkim", 300), ("arunachal pradesh", 300), ("nagaland", 200),
    ("manipur", 300), ("mizoram", 400), ("tripura", 400)]),
  ("meghalaya", [("kerala", 2400), ("tamil nadu", 2200), ("karnataka", 2000), ("andhra pradesh", 1800),
    ("telangana", 1600), ("goa", 2000), ("mumbai", 1800), ("maharashtra", 1600), ("gujarat", 1800),
    ("rajasthan", 1800), ("delhi", 1700), ("haryana", 1650), ("punjab", 1800), ("uttarakhand", 1600),
    ("himachal pradesh", 1700), ("kashmir", 2100), ("uttar pradesh", 1400), ("madhya pradesh", 1200),
    ("chhattisgarh", 1000), ("jharkhand", 700), ("bihar", 600), ("west bengal", 400), ("odisha", 600),
    ("assam", 100), ("sikkim", 400), ("arunachal pradesh", 400), ("nagaland", 300), ("manipur", 400),
    ("mizoram", 300), ("tripura", 300)]),
  ("sikkim", [("kerala", 2200), ("tamil nadu", 2000), ("karnataka", 1800), ("andhra pradesh", 1600),
    ("telangana", 1400), ("goa", 1800), ("mumbai", 1600), ("maharashtra", 1400), ("gujarat", 1600),
    ("rajasthan", 1600), ("delhi", 1500), ("haryana", 1450), ("punjab", 1600), ("uttarakhand", 1400),
    ("himachal pradesh", 1500), ("kashmir", 1900), ("uttar pradesh", 1200), ("madhya pradesh", 1000),
    ("chhattisgarh", 800), ("jharkhand", 500), ("bihar", 400), ("west bengal", 200), ("odisha", 600),
    ("assam", 300), ("meghalaya", 400), ("arunachal pradesh", 500), ("nagaland", 400),
    ("manipur", 500), ("mizoram", 600), ("tripura", 500)]),
  ("arunachal pradesh", [("kerala", 2600), ("tamil nadu", 2400), ("karnataka", 2200),
    ("andhra pradesh", 2000), ("telangana", 1800), ("goa", 2200), ("mumbai", 2000),
    ("maharashtra", 1800), ("gujarat", 2000), ("rajasthan", 2000), ("delhi", 1900), ("haryana", 1850),
    ("punjab", 2000), ("uttarakhand", 1800), ("himachal pradesh", 1900), ("kashmir", 2300),
    ("uttar pradesh", 1600), ("madhya pradesh", 1400), ("chhattisgarh", 1200), ("jharkhand", 900),
    ("bihar", 800), ("west bengal", 600), ("odisha", 800), ("assam", 300), ("meghalaya", 400),
    ("sikkim", 500), ("nagaland", 400), ("manipur", 400), ("mizoram", 500), ("tripura", 600)]),
  ("nagaland", [("kerala", 2500), ("tamil nadu", 2300), ("karnataka", 2100), ("andhra pradesh", 1900),
    ("telangana", 1700), ("goa", 2100), ("mumbai", 1900), ("maharashtra", 1700), ("gujarat", 1900),
    ("rajasthan", 1900), ("delhi", 1800), ("haryana", 1750), ("punjab", 1900), ("uttarakhand", 1700),
    ("himachal pradesh", 1800), ("kashmir", 2200), ("uttar pradesh", 1500), ("madhya pradesh", 1300),
    ("chhattisgarh", 1100), ("jharkhand", 800), ("bihar", 700), ("west bengal", 500), ("odisha", 700),
    ("assam", 200), ("meghalaya", 300), ("sikkim", 400), ("arunachal pradesh", 400), ("manipur", 200),
    ("mizoram", 300), ("tripura", 400)]),
  ("manipur", [("kerala", 2500), ("tamil nadu", 2300), ("karnataka", 2100), ("andhra pradesh", 1900),
    ("telangana", 1700), ("goa", 2100), ("mumbai", 1900), ("maharashtra", 1700), ("gujarat", 1900),
    ("rajasthan", 1900), ("delhi", 1800), ("haryana", 1750), ("punjab", 1900), ("uttarakhand", 1700),
    ("himachal pradesh", 1800), ("kashmir", 2200), ("uttar pradesh", 1500), ("madhya pradesh", 1300),
    ("chhattisgarh", 1100), ("jharkhand", 800), ("bihar", 700), ("west bengal", 500), ("odisha", 700),
    ("assam", 300), ("meghalaya", 400), ("sikkim", 500), ("arunachal pradesh", 400), ("nagaland", 200),
    ("mizoram", 200), ("tripura", 300)]),
  ("mizoram", [("kerala", 2400), ("tamil nadu", 2200), ("karnataka", 2000), ("andhra pradesh", 1800),
    ("telangana", 1600), ("goa", 2000), ("mumbai", 1800), ("maharashtra", 1600), ("gujarat", 1800),
    ("rajasthan", 1800), ("delhi", 1700), ("haryana", 1650), ("punjab", 1800), ("uttarakhand", 1600),
    ("himachal pradesh", 1700), ("kashmir", 2100), ("uttar pradesh", 1400), ("madhya pradesh", 1200),
    ("chhattisgarh", 1000), ("jharkhand", 700), ("bihar", 600), ("west bengal", 400), ("odisha", 600),
    ("assam", 400), ("meghalaya", 300), ("sikkim", 600), ("arunachal pradesh", 500), ("nagaland", 300),
    ("manipur", 200), ("tripura", 200)]),
  ("tripura", [("kerala", 2300), ("tamil nadu", 2100), ("karnataka", 1900), ("andhra pradesh", 1700),
    ("telangana", 1500), ("goa", 1900), ("mumbai", 1700), ("maharashtra", 1500), ("gujarat", 1700),
    ("rajasthan", 1700), ("delhi", 1600), ("haryana", 1550), ("punjab", 1700), ("uttarakhand", 1500),
    ("himachal pradesh", 1600), ("kashmir", 2000), ("uttar pradesh", 1300), ("madhya pradesh", 1100),
    ("chhattisgarh", 900), ("jharkhand", 600), ("bihar", 500), ("west bengal", 300), ("odisha", 500),
    ("assam", 400), ("meghalaya", 300), ("sikkim", 500), ("arunachal pradesh", 600), ("nagaland", 400),
    ("manipur", 300), ("mizoram", 200)]),
  ("bangalore", [("kerala", 350), ("tamil nadu", 350), ("chennai", 350), ("mumbai", 980),
    ("delhi", 2100), ("goa", 560), ("hyderabad", 600), ("pune", 800), ("kolkata", 1400),
    ("ahmedabad", 1100), ("surat", 1000), ("jaipur", 1600), ("lucknow", 1900), ("kanpur", 1950),
    ("nagpur", 800), ("indore", 1100), ("thane", 1000), ("bhopal", 1100), ("visakhapatnam", 500),
    ("pimpri", 820), ("patna", 1500), ("vadodara", 1050), ("ghaziabad", 2120), ("ludhiana", 2200),
    ("agra", 2000), ("nashik", 900), ("faridabad", 2100), ("meerut", 2150), ("rajkot", 1200),
    ("kalyan", 1010), ("vasai", 1020), ("varanasi", 1800), ("srinagar", 2600), ("aurangabad", 800),
    ("dhanbad", 1400), ("amritsar", 2300), ("navi mumbai", 990), ("allahabad", 1850), ("ranchi", 1400),
    ("howrah", 1410), ("coimbatore", 500), ("jabalpur", 1200), ("gwalior", 1600)]),
  ("chennai", [("kerala", 650), ("tamil nadu", 100), ("bangalore", 350), ("mumbai", 1100),
    ("delhi", 2200), ("goa", 900), ("hyderabad", 600), ("pune", 1000), ("kolkata", 1600),
    ("ahmedabad", 1300), ("surat", 1200), ("jaipur", 1800), ("lucknow", 2100), ("kanpur", 2150),
    ("nagpur", 1000), ("indore", 1300), ("thane", 1120), ("bhopal", 1300), ("visakhapatnam", 450),
    ("pimpri", 1020), ("patna", 1700), ("vadodara", 1250), ("ghaziabad", 2220), ("ludhiana", 2300),
    ("agra", 2200), ("nashik", 1100), ("faridabad", 2200), ("meerut", 2250), ("rajkot", 1400),
    ("kalyan", 1130), ("vasai", 1140), ("varanasi", 2000), ("srinagar", 2700), ("aurangabad", 1000),
    ("dhanbad", 1600), ("amritsar", 2400), ("navi mumbai", 1110), ("allahabad", 2050),
    ("ranchi", 1600), ("howrah", 1610), ("coimbatore", 350), ("jabalpur", 1400), ("gwalior", 1800)]),
  ("hyderabad", [("kerala", 800), ("tamil nadu", 600), ("bangalore", 600), ("mumbai", 800),
    ("delhi", 1800), ("goa", 900), ("chennai", 600), ("pune", 600), ("kolkata", 1000),
    ("ahmedabad", 900), ("surat", 800), ("jaipur", 1300), ("lucknow", 1600), ("kanpur", 1650),
    ("nagpur", 500), ("indore", 800), ("thane", 820), ("bhopal", 800), ("visakhapatnam", 200),
    ("pimpri", 620), ("patna", 1100), ("vadodara", 850), ("ghaziabad", 1820), ("ludhiana", 1900),
    ("agra", 1700), ("nashik", 700), ("faridabad", 1800), ("meerut", 1850), ("rajkot", 1000),
    ("kalyan", 830), ("vasai", 840), ("varanasi", 1500), ("srinagar", 2300), ("aurangabad", 600),
    ("dhanbad", 1000), ("amritsar", 2000), ("navi mumbai", 810), ("allahabad", 1450), ("ranchi", 1000),
    ("howrah", 1010), ("coimbatore", 800), ("jabalpur", 900), ("gwalior", 1200)])
]

/-- `distances.get(a, {}).get(b)`. -/
def lookupDist (a b : String) : Option Nat :=
  dictGet (dictGetD distances a []) b

/-- Python `x or y` on optional ints: `None` and `0` are falsy. -/
def pyOrOpt (a b : Option Nat) : Option Nat :=
  match a with
  | some n => if n = 0 then b else some n
  | none => b

/-- Python `x or d` collapsing an optional int to an int (`0` is falsy). -/
def pyOrNat (a : Option Nat) (d : Nat) : Nat :=
  match a with
  | some n => if n = 0 then d else n
  | none => d

/-- `calculate_minimum_duration` from `travel_planner_ui/server/main.py`:
look the lowercased pair up in both directions, default 300 km, then map
distance to a minimum number of days depending on the travel mode. -/
def calculate_minimum_duration (source destination travel_mode : String) : Nat :=
  let source_key := pyLower source
  let dest_key := pyLower destination
  let distance :=
    pyOrNat (pyOrOpt (lookupDist source_key dest_key) (lookupDist dest_key source_key)) 300
  if travel_mode = "Self" then
    if distance ≤ 300 then 2
    else if distance ≤ 800 then 3
    else if distance ≤ 1500 then 4
    else 5
  else
    if distance ≤ 500 then 2
    else if distance ≤ 1200 then 3
    else 4

/-- The specification's reading of `calculate_minimum_duration` (claim C2):
look the lowercased pair up source→destination first, then
destination→source, default to 300 km when neither direction is present,
then apply the distance thresholds of the two modes. -/
def claimed_minimum_duration (source destination travel_mode : String) : Nat :=
  let distance :=
    ((lookupDist (pyLower source) (pyLower destination)).orElse
      (fun _ => lookupDist (pyLower destination) (pyLower source))).getD 300
  if travel_mode = "Self" then
    if distance ≤ 300 then 2
    else if distance ≤ 800 then 3
    else if distance ≤ 1500 then 4
    else 5
  else
    if distance ≤ 500 then 2
    else if distance ≤ 1200 then 3
    else 4

/-- Every distance recorded in the table is nonzero (so Python's falsy
`or`-chaining never skips a present entry). -/
def distancesPos : Bool :=
  distances.all fun p => p.2.all fun q => q.2 ≠ 0

/-- Whenever both directions of a pair appear in the table, they carry the
same distance. -/
def distancesSym : Bool :=
  distances.all fun p => p.2.all fun q =>
    match lookupDist q.1 p.1 with
    | some w => w = q.2
    | none => true

/-! ## `get_feasible_durations` -/

/-- One entry of the fixed duration menu in `get_feasible_durations`. -/
structure DurationOption where
  label : String
  value : String
  days : Nat
  deriving DecidableEq, Repr

/-- The four-option duration menu hardcoded in `get_feasible_durations`. -/
def all_durations : List DurationOption :=
  [⟨"1-2 days", "2 days", 2⟩,
   ⟨"3-4 days", "3 days", 3⟩,
   ⟨"5-7 days", "7 days", 7⟩,
   ⟨"1 week+", "10 days", 10⟩]

/-- `get_feasible_durations` from `travel_planner_ui/server/main.py`:
keep the menu entries whose day count is at least the minimum duration. -/
def get_feasible_durations (source destination travel_mode : String) :
    List DurationOption :=
  let min_duration := calculate_minimum_duration source destination travel_mode
  all_durations.filter fun duration => min_duration ≤ duration.days

/-! ## JSON-like values

The FastAPI layer and the agent's LLM pipeline traffic in arbitrary
JSON-like dicts; `Val` is their embedding. -/

/-- A JSON-like Python value: strings, integers, booleans, `None`,
lists and dicts. -/
inductive Val where
  | s (x : String)
  | i (n : Int)
  | b (x : Bool)
  | null
  | arr (xs : List Val)
  | obj (fields : List (String × Val))
  deriving Repr

/-! ## `validate_budget` and `validate_duration` -/

/-- ASCII fragment of Python's regex class `\s`. -/
def pyWhitespace (c : Char) : Bool :=
  c = ' ' || c = '\t' || c = '\n' || c = '\r' || c = '\x0b' || c = '\x0c'

/-- One character of the class `[₹Rs,\s]` that `validate_budget` strips
from the budget string. -/
def budgetJunkChar (c : Char) : Bool :=
  c = '₹' || c = 'R' || c = 's' || c = ',' || pyWhitespace c

/-- `re.sub(r'[₹Rs,\s]', '', budget_str)`. -/
def cleanBudget (str : String) : String :=
  String.mk (str.data.filter fun c => !budgetJunkChar c)

/-- Scanner for `digitRuns`: `acc` is the (reversed) digit run currently
being read. -/
def digitRunsAux : List Char → List Char → List (List Char)
  | [], acc => if acc.isEmpty then [] else [acc.reverse]
  | c :: cs, acc =>
    if c.isDigit then digitRunsAux cs (c :: acc)
    else if acc.isEmpty then digitRunsAux cs []
    else acc.reverse :: digitRunsAux cs []

/-- `re.findall(r'\d+', ·)`: the maximal runs of decimal digits. -/
def digitRuns (cs : List Char) : List (List Char) :=
  digitRunsAux cs []

/-- `int` on a string of decimal digits. -/
def natOfDigits (cs : List Char) : Nat :=
  cs.foldl (fun a c => 10 * a + (c.toNat - '0'.toNat)) 0

/-- `int(duration_numbers[0]) if duration_numbers else 1`: the first run
of digits in a string, defaulting to 1 — how both `validate_budget` and
`validate_duration` read a day count. -/
def firstNumberD1 (str : String) : Nat :=
  match digitRuns str.data with
  | [] => 1
  | run :: _ => natOfDigits run

/-- The `theme_multipliers` dict of `validate_budget`. -/
def theme_multipliers : List (String × ℚ) :=
  [("devotional", 1.0), ("cultural", 1.2), ("adventurous", 1.5),
   ("nightlife", 2.0), ("luxury", 3.0)]

/-- The `travel_input` dict: every field the agent reads, each possibly
absent.  All values the code ever reads out of it are strings. -/
structure TravelInput where
  source : Option String := none
  destination : Option String := none
  travel_mode : Option String := none
  budget : Option String := none
  theme : Option String := none
  duration : Option String := none
  vehicle_type : Option String := none
  deriving DecidableEq, Repr

/-- The dict returned by `validate_budget`: `buffer_amount` appears only
in the sufficient branch, `shortfall` only in the insufficient one.  The
human-readable `message`/`alert_message` strings are determined by the
numeric fields and are not embedded. -/
structure BudgetValidation where
  status : String
  provided_budget : Int
  minimum_required : Int
  buffer_amount : Option Int := none
  shortfall : Option Int := none
  deriving DecidableEq, Repr

/-- `PersonalizedTripPlanner.validate_budget`, with the per-day cost
arithmetic embedded in `ℚ`.  In exact arithmetic every summand is an
integer (the 0.4/0.3 splits and the multipliers cancel), and CPython's
float evaluation reaches the same integer for every day count below
about `10^11`, astronomically past any real trip; `int(...)` is `⌊·⌋`
(the sum is never negative). -/
def validate_budget (travel_input : TravelInput) : BudgetValidation :=
  let budget_str := travel_input.budget.getD "0"
  let cleaned_budget := cleanBudget budget_str
  let budget_numbers := digitRuns cleaned_budget.data
  let budget : Int := if budget_numbers.isEmpty then 0 else natOfDigits budget_numbers.flatten
  let travel_mode := travel_input.travel_mode.getD "Self"
  let theme := pyLower (travel_input.theme.getD "cultural")
  let duration : ℚ := firstNumberD1 (travel_input.duration.getD "1")
  let base_daily_cost : ℚ := 2500
  let theme_multiplier := dictGetD theme_multipliers theme 1.2
  let transport_cost : ℚ :=
    if pyLower travel_mode = "self" then duration * 1500 else duration * 3500
  let accommodation_cost := duration * base_daily_cost * 0.4 * theme_multiplier
  let food_cost := duration * base_daily_cost * 0.3
  let activities_cost := duration * base_daily_cost * 0.3 * theme_multiplier
  let minimum_budget : Int :=
    ⌊transport_cost + accommodation_cost + food_cost + activities_cost⌋
  if budget ≥ minimum_budget then
    { status := "sufficient", provided_budget := budget,
      minimum_required := minimum_budget,
      buffer_amount := some (budget - minimum_budget) }
  else
    { status := "insufficient", provided_budget := budget,
      minimum_required := minimum_budget,
      shortfall := some (minimum_budget - budget) }

/-- The specification's reading of the budget parser (claim C10): delete
the characters `₹`, `R`, `s`, comma and whitespace, then concatenate
every remaining run of digits into a single number (0 when no digit
remains). -/
def claimed_budget_parse (str : String) : Int :=
  let remaining := str.data.filter fun c => !budgetJunkChar c
  let runs := digitRuns remaining
  if runs.isEmpty then 0 else natOfDigits runs.flatten

/-- The specification's theme multiplier table (claim C1). -/
def claimed_theme_multiplier (theme : String) : ℚ :=
  if theme = "devotional" then 1.0
  else if theme = "cultural" then 1.2
  else if theme = "adventurous" then 1.5
  else if theme = "nightlife" then 2.0
  else if theme = "luxury" then 3.0
  else 1.2

/-- The specification's minimum-budget formula (claim C1):
`duration*(1500 if self else 3500) + duration*2500*0.4*m
 + duration*2500*0.3 + duration*2500*0.3*m`, truncated to an int. -/
def claimed_minimum_budget (travel_input : TravelInput) : Int :=
  let duration : ℚ := firstNumberD1 (travel_input.duration.getD "1")
  let m := claimed_theme_multiplier (pyLower (travel_input.theme.getD "cultural"))
  let mode := travel_input.travel_mode.getD "Self"
  ⌊duration * (if pyLower mode = "self" then (1500 : ℚ) else 3500)
    + duration * 2500 * 0.4 * m + duration * 2500 * 0.3
    + duration * 2500 * 0.3 * m⌋

/-- The dict returned by `validate_duration` (messages omitted, they are
determined by the other fields). -/
structure DurationValidation where
  status : String
  validated_duration : Option Int := none
  recommended_duration : Option Int := none
  deriving DecidableEq, Repr

/-- `PersonalizedTripPlanner.validate_duration`. -/
def validate_duration (duration : String) : DurationValidation :=
  let days : Int := firstNumberD1 duration
  if days < 1 then
    { status := "invalid", recommended_duration := some 2 }
  else if days > 30 then
    { status := "warning", validated_duration := some days }
  else
    { status := "valid", validated_duration := some days }

/-! ## `_create_fallback_itinerary` and `generate_personalized_itinerary` -/

/-- Scanner for Python's `str.title()`: the flag records whether the
previous character was alphabetic. -/
def pyTitleAux : Bool → List Char → List Char
  | _, [] => []
  | prevAlpha, c :: cs =>
    (if c.isAlpha then (if prevAlpha then c.toLower else c.toUpper) else c)
      :: pyTitleAux c.isAlpha cs

/-- Python `str.title()` (ASCII fragment). -/
def pyTitle (str : String) : String :=
  String.mk (pyTitleAux false str.data)

/-- The `trip_overview` sub-dict of the fallback itinerary. -/
structure TripOverview where
  source : String
  destination : String
  travel_mode : String
  theme : String
  duration : String
  budget : String
  deriving DecidableEq, Repr

/-- One day of the fallback `itinerary` list. -/
structure DayPlan where
  day : Nat
  title : String
  activities : List String
  deriving DecidableEq, Repr

/-- The `recommendations` sub-dict of the fallback itinerary. -/
structure Recommendations where
  hotels : List String
  restaurants : List String
  activities : List String
  local_markets : List String
  deriving DecidableEq, Repr

/-- The dict built by `_create_fallback_itinerary`. -/
structure FallbackItinerary where
  status : String
  message : String
  trip_overview : TripOverview
  budget_validation : BudgetValidation
  duration_validation : DurationValidation
  itinerary : List DayPlan
  recommendations : Recommendations
  generated_at : String
  deriving DecidableEq, Repr

/-- `PersonalizedTripPlanner._create_fallback_itinerary`.  The
`datetime.now().isoformat()` timestamp it embeds is passed in as the
explicit argument `now_iso`. -/
def create_fallback_itinerary (travel_input : TravelInput)
    (budget_validation : BudgetValidation)
    (duration_validation : DurationValidation) (now_iso : String) :
    FallbackItinerary :=
  let destination := travel_input.destination.getD "Destination"
  let theme := travel_input.theme.getD "cultural"
  let duration := travel_input.duration.getD "3 days"
  { status := "fallback"
    message := "AI-generated itinerary not available. Using fallback plan."
    trip_overview :=
      { source := travel_input.source.getD ""
        destination := destination
        travel_mode := travel_input.travel_mode.getD ""
        theme := theme
        duration := duration
        budget := travel_input.budget.getD "" }
    budget_validation := budget_validation
    duration_validation := duration_validation
    itinerary :=
      [{ day := 1
         title := "Arrival and " ++ destination ++ " Exploration"
         activities :=
           ["Arrive at " ++ destination, "Check into hotel",
            "Local " ++ theme ++ " site visit", "Dinner at local restaurant"] },
       { day := 2
         title := "Full Day " ++ pyTitle theme ++ " Experience"
         activities :=
           ["Morning " ++ theme ++ " activity", "Local market visit",
            "Afternoon sightseeing", "Evening leisure time"] }]
    recommendations :=
      { hotels := ["Recommended hotels in " ++ destination]
        restaurants := ["Local " ++ theme ++ "-themed restaurants"]
        activities := [pyTitle theme ++ " activities and attractions"]
        local_markets := ["Popular markets in " ++ destination] }
    generated_at := now_iso }

/-- `PersonalizedTripPlanner._get_cost_saving_tips`. -/
def get_cost_saving_tips (travel_mode theme : String) : List String :=
  let tips :=
    ["Book accommodations in advance for better rates",
     "Travel during off-peak seasons for lower costs",
     "Use local public transport within cities",
     "Eat at local restaurants instead of hotel dining"]
  let tips := tips ++
    (if pyLower travel_mode = "self" then
      ["Plan fuel-efficient routes to save on fuel costs",
       "Share fuel costs if traveling with others",
       "Choose accommodation with free parking"]
    else
      ["Book transport tickets in advance for discounts",
       "Compare prices across different booking platforms",
       "Consider train travel for longer distances to save costs"])
  if pyLower theme = "devotional" then
    tips ++ ["Many temples provide free accommodation",
             "Look for community kitchens for free meals",
             "Choose simple, modest accommodations"]
  else if pyLower theme = "adventurous" then
    tips ++ ["Book activity packages for group discounts",
             "Rent equipment locally instead of buying",
             "Choose adventure hostels for budget accommodation"]
  else tips

/-- The three shapes of dict `generate_personalized_itinerary` can
return: the early budget-insufficient alert, an AI-produced itinerary,
or the fallback template. -/
inductive PlannerResponse where
  | budget_insufficient (budget_validation : BudgetValidation)
      (duration_validation : DurationValidation)
      (minimum_budget : Int) (cost_saving_tips : List String)
  | success (itinerary : Val)
  | fallback (itinerary : FallbackItinerary)

/-- `PersonalizedTripPlanner.generate_personalized_itinerary`.

The Gemini round trip (`start_chat`, `_send_message_with_functions`,
`_process_ai_response`) is modeled by the oracle `ai_attempts`: for each
call the method would make to the pipeline, the list supplies either the
processed final itinerary or the exception the call raises.  The code
makes a single call inside its `try`, so only the head of the list is
ever consulted; an empty list also denotes a failing call. -/
def generate_personalized_itinerary (travel_input : TravelInput)
    (now_iso : String) (ai_attempts : List (Except String Val)) :
    PlannerResponse :=
  let travel_mode := travel_input.travel_mode.getD "Self"
  let theme := travel_input.theme.getD "cultural"
  let duration := travel_input.duration.getD "3 days"
  let budget_validation := validate_budget travel_input
  let duration_validation := validate_duration duration
  if budget_validation.status = "insufficient" then
    .budget_insufficient budget_validation duration_validation
      budget_validation.minimum_required
      (get_cost_saving_tips travel_mode theme)
  else
    match ai_attempts.head? with
    | some (.ok final_itinerary) => .success final_itinerary
    | some (.error _) =>
        .fallback (create_fallback_itinerary travel_input budget_validation
          duration_validation now_iso)
    | none =>
        .fallback (create_fallback_itinerary travel_input budget_validation
          duration_validation now_iso)

/-! ## The saved-trips endpoints -/

/-- The `SaveTripRequest` pydantic model (`id` is optional). -/
structure SaveTripRequest where
  id : Option String := none
  name : String
  trip_data : Val

/-- One record of the in-memory `saved_trips` dict. -/
structure SavedTrip where
  id : String
  name : String
  trip_data : Val
  created_at : String
  updated_at : String

/-- The in-memory `saved_trips` dict, as an association list with unique
keys (a Python dict cannot hold a key twice). -/
abbrev TripStore := List (String × SavedTrip)

/-- `d[k] = v` on a Python dict: overwrite in place when the key exists,
append otherwise (dicts preserve insertion order). -/
def dictSet {α : Type} : List (String × α) → String → α → List (String × α)
  | [], k, v => [(k, v)]
  | (k', v') :: rest, k, v =>
    if k' = k then (k, v) :: rest else (k', v') :: dictSet rest k v

/-- `del d[k]` on a Python dict: drop the (unique) binding of `k`. -/
def dictDel {α : Type} : List (String × α) → String → List (String × α)
  | [], _ => []
  | (k', v') :: rest, k =>
    if k' = k then rest else (k', v') :: dictDel rest k

/-- Python `x or d` on optional strings (`None` and `""` are falsy). -/
def pyOrStr (a : Option String) (d : String) : String :=
  match a with
  | some str => if str = "" then d else str
  | none => d

/-- Result of a FastAPI endpoint: a payload or a raised `HTTPException`. -/
inductive EndpointResult (α : Type) where
  | ok (value : α)
  | httpError (status_code : Nat) (detail : String)
  deriving DecidableEq, Repr

/-- The `save_trip` endpoint.  `datetime.now()` is called once for the
generated id (`now_ts`, its `.timestamp()`) and once each for the two
`.isoformat()` fields (`created_iso`, `updated_iso`).  Returns the new
store together with the `{"id": ..., "message": ...}` payload. -/
def save_trip (store : TripStore) (request : SaveTripRequest)
    (now_ts created_iso updated_iso : String) :
    TripStore × String × String :=
  let trip_id := pyOrStr request.id ("trip_" ++ now_ts)
  (dictSet store trip_id
    { id := trip_id, name := request.name, trip_data := request.trip_data,
      created_at := created_iso, updated_at := updated_iso },
   trip_id, "Trip saved successfully")

/-- The `get_saved_trips` endpoint: `list(saved_trips.values())`. -/
def get_saved_trips (store : TripStore) : List SavedTrip :=
  store.map (·.2)

/-- The `delete_trip` endpoint: 404 when the id is absent, otherwise
delete the entry and acknowledge. -/
def delete_trip (store : TripStore) (trip_id : String) :
    TripStore × EndpointResult String :=
  if (dictGet store trip_id).isSome then
    (dictDel store trip_id, .ok "Trip deleted successfully")
  else
    (store, .httpError 404 "Trip not found")

/-! ## `transform_backend_response_to_frontend_format` -/

/-- The `budget_validation` sub-dict of a backend result, as the
transform reads it (each field possibly absent). -/
structure BudgetValidationDict where
  status : Option String := none
  provided_budget : Option Int := none
  minimum_required : Option Int := none
  deriving DecidableEq, Repr

/-- A backend result dict, as the transform reads it. -/
structure BackendResult where
  budget_validation : Option BudgetValidationDict := none
  sources : Option Val := none

/-- A `user_input` dict, as the transform reads it. -/
structure UserInputDict where
  source : Option String := none
  destination : Option String := none
  travel_mode : Option String := none
  budget : Option String := none
  theme : Option String := none
  duration : Option String := none
  deriving DecidableEq, Repr

/-- `transform_backend_response_to_frontend_format` from
`travel_planner_ui/server/main.py`: reshape a backend result into the
fixed frontend `TripResponse` dict.  `user_input` is
`Union[Dict, str]`. -/
def transform_backend_response_to_frontend_format
    (backend_result : BackendResult) (user_input : UserInputDict ⊕ String) :
    List (String × Val) :=
  let source := match user_input with
    | .inl d => d.source.getD "Unknown" | .inr _ => "Unknown"
  let destination := match user_input with
    | .inl d => d.destination.getD "Unknown" | .inr _ => "Unknown"
  let travel_mode := match user_input with
    | .inl d => d.travel_mode.getD "Self" | .inr _ => "Self"
  let budget := match user_input with
    | .inl d => d.budget.getD "₹15000" | .inr _ => "₹15000"
  let theme := match user_input with
    | .inl d => d.theme.getD "Adventure" | .inr _ => "Adventure"
  let duration := match user_input with
    | .inl d => d.duration.getD "3 days" | .inr _ => "3 days"
  let budget_validation := backend_result.budget_validation.getD {}
  let budget_status0 := budget_validation.status.getD "sufficient"
  let budget_status :=
    if budget_status0 = "sufficient" ∨ budget_status0 = "insufficient" then
      budget_status0
    else
      if budget_validation.provided_budget.getD 0 ≥
          budget_validation.minimum_required.getD 0 then "sufficient"
      else "insufficient"
  let minimum_required_str := toString (budget_validation.minimum_required.getD 15000)
  [("trip_overview", .obj
      [("source", .s source),
       ("destination", .s destination),
       ("travel_mode", .s travel_mode),
       ("budget", .s budget),
       ("theme", .s theme),
       ("duration", .s duration),
       ("budget_status", .s budget_status),
       ("estimated_cost", .s ("₹" ++ minimum_required_str)),
       ("minimum_budget_required",
        if budget_status = "insufficient" then .s ("₹" ++ minimum_required_str)
        else .null)]),
   ("destinations", .arr
      [.obj
        [("name", .s ("Top Attraction in " ++ destination)),
         ("description", .s ("Must-visit destination in " ++ destination ++
            " perfect for " ++ theme ++ " travelers")),
         ("theme_alignment", .s ("Excellent for " ++ theme ++ " theme")),
         ("highlights", .arr
            [.s "Popular attraction", .s "Great reviews", .s "Theme-appropriate"]),
         ("estimated_time", .s "3-4 hours"),
         ("entry_fees", .s "₹200-500"),
         ("best_time_to_visit", .s "Morning to evening"),
         ("booking_options", .obj
            [("available", .b true), ("booking_url", .s "#")])]]),
   ("hotels", .arr
      [.obj
        [("name", .s ("Hotel Paradise " ++ destination)),
         ("location", .s (destination ++ " City Center")),
         ("rating", .s "4.2/5"),
         ("price_range", .s "₹2,500-4,000/night"),
         ("amenities", .arr
            [.s "Free WiFi", .s "Restaurant", .s "Parking", .s "AC"]),
         ("theme_suitability", .s ("Perfect for " ++ theme ++ " travelers")),
         ("booking_options", .obj
            [("available", .b true), ("booking_url", .s "#"),
             ("one_click_booking", .b false)])]]),
   ("restaurants", .arr
      [.obj
        [("name", .s ("Local Delights " ++ destination)),
         ("cuisine_type", .s "Local"),
         ("location", .s (destination ++ " area")),
         ("rating", .s "4.5/5"),
         ("price_range", .s "₹300-600 per person"),
         ("specialties", .arr
            [.s "Local cuisine", .s "Regional specialties", .s "Fresh ingredients"]),
         ("theme_alignment", .s ("Great for " ++ theme ++ " travelers"))]]),
   ("transportation", .obj
      (("mode", .s travel_mode) ::
        (if travel_mode = "Self" then
          [("self_mode", .obj
            [("route_details", .s ("Optimized route from " ++ source ++ " to " ++
                destination)),
             ("fuel_estimate", .obj
                [("vehicle_type", .s "Car"),
                 ("total_distance", .s "350 km"),
                 ("fuel_cost", .s "₹2,500"),
                 ("toll_charges", .s "₹500")]),
             ("route_hotels", .arr [.s "Highway Rest Inn", .s "Midway Lodge"]),
             ("route_restaurants", .arr [.s "Highway Dhaba", .s "Travel Plaza"])])]
        else
          [("booking_mode", .obj
            [("transport_options", .arr
              [.obj
                [("type", .s "Flight"),
                 ("operator", .s "Various Airlines"),
                 ("price", .s "₹4,000-8,000"),
                 ("duration", .s "1.5 hours"),
                 ("booking_url", .s "https://booking-site.com"),
                 ("one_click_booking", .b true)],
               .obj
                [("type", .s "Train"),
                 ("operator", .s "Indian Railways"),
                 ("price", .s "₹800-2,500"),
                 ("duration", .s "6-8 hours"),
                 ("booking_url", .s "https://irctc.co.in"),
                 ("one_click_booking", .b true)]])])]))),
   ("budget_breakdown", .obj
      [("total_budget", .s budget),
       ("estimated_cost", .s ("₹" ++ minimum_required_str)),
       ("breakdown", .obj
          [("transportation", .s "25%"),
           ("accommodation", .s "40%"),
           ("food", .s "20%"),
           ("activities", .s "15%")]),
       ("budget_status", .s budget_status)]),
   ("weather_info", .obj
      [("current_conditions", .s "Pleasant"),
       ("temperature_range", .s "22-28°C"),
       ("seasonal_info", .s "Good weather for outdoor activities"),
       ("weather_recommendations", .arr
          [.s "Pack light cotton clothes", .s "Carry umbrella",
           .s "Sunscreen recommended"]),
       ("climate_considerations", .s "Suitable for all planned activities")]),
   ("daily_itinerary", .arr
      [.obj
        [("day", .i 1),
         ("weather_forecast", .s "Pleasant, 25°C"),
         ("theme_focus", .s theme),
         ("morning", .obj
            [("activity", .s ("Arrival and " ++ destination ++ " exploration")),
             ("location", .s destination),
             ("duration", .s "3 hours"),
             ("cost", .s "₹500")]),
         ("afternoon", .obj
            [("activity", .s (theme ++ " themed activity")),
             ("location", .s (destination ++ " attractions")),
             ("duration", .s "4 hours"),
             ("cost", .s "₹1,200")]),
         ("evening", .obj
            [("activity", .s "Local dining and leisure"),
             ("location", .s (destination ++ " city center")),
             ("duration", .s "2 hours"),
             ("cost", .s "₹800")]),
         ("accommodation", .s ("Hotel Paradise " ++ destination)),
         ("meals", .obj
            [("breakfast", .s "Hotel breakfast"),
             ("lunch", .s "Local restaurant"),
             ("dinner", .s "Traditional cuisine")]),
         ("daily_total_cost", .s "₹2,500")]]),
   ("booking_summary", .obj
      [("one_click_bookings_available", .b true),
       ("booking_links", .obj
          [("transportation", .s "https://booking-site.com"),
           ("hotels", .arr [.s "https://hotel-booking.com"]),
           ("activities", .arr [.s "https://activity-booking.com"])]),
       ("booking_instructions",
        .s "Click on individual booking links to reserve your selections")]),
   ("sources", backend_result.sources.getD
      (.arr [.s "AI Travel Planning System"]))]

/-- The `trip_overview.budget_status` field of a transformed response. -/
def tripBudgetStatus (response : List (String × Val)) : Option Val :=
  (dictGet response "trip_overview").bind fun v =>
    match v with
    | .obj fields => dictGet fields "budget_status"
    | _ => none

/-! ## A regex matcher for `_parse_distance` / `_parse_duration`

The two parsers use `re.search` with a fixed set of patterns built from
literals, character classes, bounded repetition, `?` and `*`.  `RE`
embeds exactly those constructs; `runRE` enumerates the candidate
matches of a pattern at the front of the input in Python's backtracking
priority order (alternatives left first, quantifiers greedy), so the
head of the list is the match `re.search` commits to at that start
position, and `research` scans start positions left to right. -/

/-- Regular expressions over characters: empty, single-character class,
concatenation, prioritized alternation, greedy star, capture group. -/
inductive RE where
  | eps
  | pred (p : Char → Bool)
  | seq (a b : RE)
  | alt (a b : RE)
  | star (a : RE)
  | grp (idx : Nat) (a : RE)

/-- All candidate matches of `r` at the front of `cs`, in priority
order, each as (remaining input, captured groups).  `fuel` bounds star
iterations; every star body in the embedded patterns consumes at least
one character, so `cs.length + 2` fuel is always enough. -/
def runRE : Nat → RE → List Char → List (List Char × List (Nat × String))
  | 0, _, _ => []
  | _ + 1, .eps, cs => [(cs, [])]
  | _ + 1, .pred _, [] => []
  | _ + 1, .pred p, c :: cs => if p c then [(cs, [])] else []
  | fuel + 1, .seq a b, cs =>
    (runRE fuel a cs).flatMap fun r1 =>
      (runRE fuel b r1.1).map fun r2 => (r2.1, r1.2 ++ r2.2)
  | fuel + 1, .alt a b, cs => runRE fuel a cs ++ runRE fuel b cs
  | fuel + 1, .grp i a, cs =>
    (runRE fuel a cs).map fun r =>
      (r.1, (i, String.mk (cs.take (cs.length - r.1.length))) :: r.2)
  | fuel + 1, .star a, cs =>
    ((runRE fuel a cs).filter fun r => r.1.length < cs.length).flatMap
      (fun r => (runRE fuel (.star a) r.1).map fun r2 => (r2.1, r.2 ++ r2.2))
    ++ [(cs, [])]

/-- Structural size of a pattern. -/
def reSize : RE → Nat
  | .eps => 1
  | .pred _ => 1
  | .seq a b => reSize a + reSize b + 1
  | .alt a b => reSize a + reSize b + 1
  | .star a => reSize a + 1
  | .grp _ a => reSize a + 1

/-- Fuel that amply covers the recursion depth of `runRE` for pattern
`r` on input `cs` (star bodies here always consume ≥ 1 character). -/
def reFuel (r : RE) (cs : List Char) : Nat :=
  (reSize r + 2) * (cs.length + 2)

/-- `re.search` on the tail starting at each position, leftmost first. -/
def searchAux (r : RE) : List Char → Option (List (Nat × String))
  | [] => ((runRE (reFuel r []) r []).head?).map (·.2)
  | c :: cs =>
    match (runRE (reFuel r (c :: cs)) r (c :: cs)).head? with
    | some result => some result.2
    | none => searchAux r cs

/-- `re.search(pattern, s)`, returning the captured groups of the match
(`none` when the pattern occurs nowhere in `s`). -/
def research (r : RE) (s : String) : Option (List (Nat × String)) :=
  searchAux r s.data

/-- A literal character. -/
def chr (c : Char) : RE := .pred (· = c)

/-- A literal string. -/
def lit (s : String) : RE := s.data.foldr (fun c r => .seq (chr c) r) .eps

/-- Greedy `?`. -/
def opt (r : RE) : RE := .alt r .eps

/-- Greedy `{0,n}`. -/
def repUpTo : Nat → RE → RE
  | 0, _ => .eps
  | n + 1, r => opt (.seq r (repUpTo n r))

/-- Greedy `{m,n}`. -/
def repRange (m n : Nat) (r : RE) : RE :=
  (List.replicate m r).foldr .seq (repUpTo (n - m) r)

/-- Greedy `+`. -/
def plus (r : RE) : RE := .seq r (.star r)

/-- `\d`. -/
def digitRE : RE := .pred Char.isDigit

/-- `\s` (ASCII fragment). -/
def wsRE : RE := .pred pyWhitespace

/-- `\d{1,4}(?:,\d{3})*(?:\.\d+)?` — the number shape shared by the
distance patterns. -/
def numRE : RE :=
  .seq (repRange 1 4 digitRE)
    (.seq (.star (.seq (chr ',') (repRange 3 3 digitRE)))
      (opt (.seq (chr '.') (plus digitRE))))

/-- Pattern 1 of `_parse_distance`:
`(\d{1,4}(?:,\d{3})*(?:\.\d+)?)\s*k?m`. -/
def dpat1 : RE :=
  .seq (.grp 1 numRE) (.seq (.star wsRE) (.seq (opt (chr 'k')) (chr 'm')))

/-- Pattern 2 of `_parse_distance`:
`(\d{1,4}(?:,\d{3})*(?:\.\d+)?)\s*kilo?metres?`. -/
def dpat2 : RE :=
  .seq (.grp 1 numRE)
    (.seq (.star wsRE)
      (.seq (lit "kil") (.seq (opt (chr 'o'))
        (.seq (lit "metre") (opt (chr 's'))))))

/-- Pattern 3 of `_parse_distance`: `(\d{1,4})-(\d{1,4})\s*k?m`. -/
def dpat3 : RE :=
  .seq (.grp 1 (repRange 1 4 digitRE))
    (.seq (chr '-')
      (.seq (.grp 2 (repRange 1 4 digitRE))
        (.seq (.star wsRE) (.seq (opt (chr 'k')) (chr 'm')))))

/-- Pattern 4 of `_parse_distance`:
`distance\s+(?:of\s+)?(\d{1,4}(?:,\d{3})*(?:\.\d+)?)`. -/
def dpat4 : RE :=
  .seq (lit "distance")
    (.seq (plus wsRE)
      (.seq (opt (.seq (lit "of") (plus wsRE))) (.grp 1 numRE)))

/-- `(?:ours?)?`, the tail of `h(?:ours?)?`. -/
def hourSufRE : RE := opt (.seq (lit "our") (opt (chr 's')))

/-- `(?:in(?:utes?)?)?`, the tail of `m(?:in(?:utes?)?)?`. -/
def minSufRE : RE := opt (.seq (lit "in") (opt (.seq (lit "ute") (opt (chr 's')))))

/-- Pattern 1 of `_parse_duration`:
`(\d{1,2})\s*h(?:ours?)?\s*(?:(\d{1,2})\s*m(?:in(?:utes?)?)?)?`. -/
def dur1 : RE :=
  .seq (.grp 1 (repRange 1 2 digitRE))
    (.seq (.star wsRE)
      (.seq (chr 'h')
        (.seq hourSufRE
          (.seq (.star wsRE)
            (opt (.seq (.grp 2 (repRange 1 2 digitRE))
              (.seq (.star wsRE) (.seq (chr 'm') minSufRE))))))))

/-- Pattern 2 of `_parse_duration`: `(\d{1,2}(?:\.\d+)?)\s*h(?:ours?)?`. -/
def dur2 : RE :=
  .seq (.grp 1 (.seq (repRange 1 2 digitRE) (opt (.seq (chr '.') (plus digitRE)))))
    (.seq (.star wsRE) (.seq (chr 'h') hourSufRE))

/-- Pattern 3 of `_parse_duration`: `(\d{2,4})\s*m(?:in(?:utes?)?)?`. -/
def dur3 : RE :=
  .seq (.grp 1 (repRange 2 4 digitRE))
    (.seq (.star wsRE) (.seq (chr 'm') minSufRE))

/-! ## `_parse_distance` and `_parse_duration` -/

/-- `str.replace(',', '')` (the only `replace` the parsers use). -/
def stripCommas (g : String) : String :=
  String.mk (g.data.filter (· ≠ ','))

/-- `float` on a captured number (digits with an optional fractional
part), exactly: the captured decimals here are read into `ℚ`. -/
def ratOfFloatStr (g : String) : ℚ :=
  let intPart := g.data.takeWhile (· ≠ '.')
  let fracPart := (g.data.dropWhile (· ≠ '.')).drop 1
  (natOfDigits intPart : ℚ) + (natOfDigits fracPart : ℚ) / ((10 : ℚ) ^ fracPart.length)

/-- `f"{float(g)}"` for a captured `\d{1,2}(?:\.\d+)?`: normalized
integer part, fractional part with trailing zeros dropped, `.0` when
integral.  (Exact for the short decimals these patterns capture; CPython
would round a capture with more than 17 significant digits.) -/
def pyFloatStr (g : String) : String :=
  let intPart := g.data.takeWhile (· ≠ '.')
  let fracPart :=
    (((g.data.dropWhile (· ≠ '.')).drop 1).reverse.dropWhile (· = '0')).reverse
  toString (natOfDigits intPart) ++ "." ++
    (if fracPart.isEmpty then "0" else String.mk fracPart)

/-- `TravelPlanningTool._parse_distance`: try the four patterns on the
lowercased text in order; pattern 3 averages the two ends of a range;
no match (or empty text) gives 0. -/
def parse_distance (text : String) : ℚ :=
  if text = "" then 0
  else
    let t := pyLower text
    match research dpat1 t with
    | some caps => ratOfFloatStr (stripCommas ((caps.lookup 1).getD ""))
    | none =>
      match research dpat2 t with
      | some caps => ratOfFloatStr (stripCommas ((caps.lookup 1).getD ""))
      | none =>
        match research dpat3 t with
        | some caps =>
          (ratOfFloatStr ((caps.lookup 1).getD "") +
            ratOfFloatStr ((caps.lookup 2).getD "")) / 2
        | none =>
          match research dpat4 t with
          | some caps => ratOfFloatStr (stripCommas ((caps.lookup 1).getD ""))
          | none => 0

/-- Some pattern of `_parse_distance` occurs in the lowercased text. -/
def distancePatternMatches (text : String) : Bool :=
  let t := pyLower text
  (research dpat1 t).isSome || (research dpat2 t).isSome ||
    (research dpat3 t).isSome || (research dpat4 t).isSome

/-- `TravelPlanningTool._parse_duration`: try the three patterns on the
lowercased text in order; no match (or empty text) gives `"N/A"`. -/
def parse_duration (text : String) : String :=
  if text = "" then "N/A"
  else
    let t := pyLower text
    match research dur1 t with
    | some caps =>
      let hours := natOfDigits ((caps.lookup 1).getD "").data
      let minutes :=
        match caps.lookup 2 with
        | some g => natOfDigits g.data
        | none => 0
      if minutes > 0 then toString hours ++ "h " ++ toString minutes ++ "m"
      else toString hours ++ "h"
    | none =>
      match research dur2 t with
      | some caps => pyFloatStr ((caps.lookup 1).getD "") ++ "h"
      | none =>
        match research dur3 t with
        | some caps =>
          let minutes := natOfDigits ((caps.lookup 1).getD "").data
          let hours := minutes / 60
          let mins := minutes % 60
          if hours > 0 then toString hours ++ "h " ++ toString mins ++ "m"
          else toString mins ++ "m"
        | none => "N/A"

/-- Some pattern of `_parse_duration` occurs in the lowercased text. -/
def durationPatternMatches (text : String) : Bool :=
  let t := pyLower text
  (research dur1 t).isSome || (research dur2 t).isSome ||
    (research dur3 t).isSome

/-! ## Association-list lemmas -/

theorem dictGet_mem {α : Type} {l : List (String × α)} {k : String} {v : α}
    (h : dictGet l k = some v) : (k, v) ∈ l := by
  induction l with
  | nil => simp [dictGet] at h
  | cons p rest ih =>
    obtain ⟨k', v'⟩ := p
    by_cases hk : k' = k
    · simp [dictGet, hk] at h
      simp [h, hk.symm]
    · simp [dictGet, hk] at h
      exact List.mem_cons_of_mem _ (ih h)

theorem dictGet_dictSet_self {α : Type} (l : List (String × α)) (k : String) (v : α) :
    dictGet (dictSet l k v) k = some v := by
  induction l with
  | nil => simp [dictSet, dictGet]
  | cons p rest ih =>
    obtain ⟨k', v'⟩ := p
    by_cases hk : k' = k
    · simp [dictSet, hk, dictGet]
    · simp [dictSet, hk, dictGet, ih]

theorem dictGet_dictSet_ne {α : Type} (l : List (String × α)) (k k' : String) (v : α)
    (h : k' ≠ k) : dictGet (dictSet l k v) k' = dictGet l k' := by
  induction l with
  | nil => simp [dictSet, dictGet, Ne.symm h]
  | cons p rest ih =>
    obtain ⟨k₀, v₀⟩ := p
    by_cases hk : k₀ = k
    · subst hk
      simp [dictSet, dictGet, Ne.symm h]
    · simp [dictSet, hk, dictGet, ih]

theorem dictGet_dictDel_ne {α : Type} (l : List (String × α)) (k k' : String)
    (h : k' ≠ k) : dictGet (dictDel l k) k' = dictGet l k' := by
  induction l with
  | nil => simp [dictDel]
  | cons p rest ih =>
    obtain ⟨k₀, v₀⟩ := p
    by_cases hk : k₀ = k
    · subst hk
      simp [dictDel, dictGet, Ne.symm h]
    · simp [dictDel, hk, dictGet, ih]

theorem dictGet_dictDel_self {α : Type} (l : List (String × α)) (k : String)
    (h : (l.map Prod.fst).Nodup) : dictGet (dictDel l k) k = none := by
  induction l with
  | nil => simp [dictDel, dictGet]
  | cons p rest ih =>
    obtain ⟨k₀, v₀⟩ := p
    simp only [List.map_cons, List.nodup_cons] at h
    by_cases hk : k₀ = k
    · subst hk
      cases hg : dictGet rest k₀ with
      | none => simp [dictDel, hg]
      | some w => exact absurd (List.mem_map_of_mem Prod.fst (dictGet_mem hg)) h.1
    · simp [dictDel, hk, dictGet, ih h.2]

/-! ## Distance-table facts -/

set_option maxRecDepth 40000 in
theorem distancesPos_true : distancesPos = true := by decide

set_option maxRecDepth 40000 in
theorem distancesSym_true : distancesSym = true := by decide

theorem lookupDist_mem {a b : String} {v : Nat} (h : lookupDist a b = some v) :
    ∃ row, dictGet distances a = some row ∧ dictGet row b = some v := by
  unfold lookupDist dictGetD at h
  cases hrow : dictGet distances a with
  | none => rw [hrow] at h; simp [dictGet] at h
  | some row => exact ⟨row, rfl, by rw [hrow] at h; simpa using h⟩

theorem lookupDist_ne_zero {a b : String} {v : Nat}
    (h : lookupDist a b = some v) : v ≠ 0 := by
  obtain ⟨row, hrow, hv⟩ := lookupDist_mem h
  have h1 := List.all_eq_true.mp distancesPos_true _ (dictGet_mem hrow)
  have h2 := List.all_eq_true.mp h1 _ (dictGet_mem hv)
  exact of_decide_eq_true h2

theorem lookupDist_sym {a b : String} {v w : Nat}
    (h1 : lookupDist a b = some v) (h2 : lookupDist b a = some w) : w = v := by
  obtain ⟨row, hrow, hv⟩ := lookupDist_mem h1
  have hall := List.all_eq_true.mp distancesSym_true _ (dictGet_mem hrow)
  have hq := List.all_eq_true.mp hall _ (dictGet_mem hv)
  simp only at hq
  rw [h2] at hq
  exact of_decide_eq_true hq

theorem pyOr_lookup_eq (a b : String) :
    pyOrNat (pyOrOpt (lookupDist a b) (lookupDist b a)) 300 =
      ((lookupDist a b).orElse fun _ => lookupDist b a).getD 300 := by
  cases h1 : lookupDist a b with
  | none =>
    cases h2 : lookupDist b a with
    | none => simp [pyOrOpt, pyOrNat, Option.orElse]
    | some w =>
      have := lookupDist_ne_zero h2
      simp [pyOrOpt, pyOrNat, Option.orElse, this]
  | some v =>
    have := lookupDist_ne_zero h1
    simp [pyOrOpt, pyOrNat, Option.orElse, this]

theorem pyOr_lookup_comm (a b : String) :
    pyOrNat (pyOrOpt (lookupDist a b) (lookupDist b a)) 300 =
      pyOrNat (pyOrOpt (lookupDist b a) (lookupDist a b)) 300 := by
  cases h1 : lookupDist a b with
  | none =>
    cases h2 : lookupDist b a with
    | none => rfl
    | some w => by_cases hw : w = 0 <;> simp [pyOrOpt, pyOrNat, hw]
  | some v =>
    cases h2 : lookupDist b a with
    | none => by_cases hv : v = 0 <;> simp [pyOrOpt, pyOrNat, hv]
    | some w =>
      have hvw : w = v := lookupDist_sym h1 h2
      subst hvw
      rfl

/-! ## Claim C2: `calculate_minimum_duration` agrees with its
specification -/

/-- C2: for every source, destination and travel mode,
`calculate_minimum_duration` computes exactly what the specification
says: look the lowercased pair up source→destination, then
destination→source, default 300 km, and map the distance through the
mode's thresholds (Self: ≤300 ↦ 2, ≤800 ↦ 3, ≤1500 ↦ 4, else 5;
otherwise: ≤500 ↦ 2, ≤1200 ↦ 3, else 4). -/
theorem calculate_minimum_duration_spec (source destination travel_mode : String) :
    calculate_minimum_duration source destination travel_mode =
      claimed_minimum_duration source destination travel_mode := by
  simp only [calculate_minimum_duration, claimed_minimum_duration]
  rw [pyOr_lookup_eq]

/-! ## Claim C8: commutativity in source and destination -/

/-- C8: `calculate_minimum_duration` is commutative in its first two
arguments — the lookup tries both directions of the pair, and both
directions of every pair present twice in the table carry the same
distance. -/
theorem calculate_minimum_duration_comm (source destination travel_mode : String) :
    calculate_minimum_duration source destination travel_mode =
      calculate_minimum_duration destination source travel_mode := by
  simp only [calculate_minimum_duration]
  rw [pyOr_lookup_comm]

/-! ## Claim C9: duration bounds and the feasible-duration menu -/

/-- C9: the minimum duration is always between 2 and 5 days (at most 4
outside `Self` mode), so `get_feasible_durations` is never empty and
always keeps the 7-day and 10-day options of its fixed menu. -/
theorem calculate_minimum_duration_bounds (source destination travel_mode : String) :
    2 ≤ calculate_minimum_duration source destination travel_mode ∧
    calculate_minimum_duration source destination travel_mode ≤ 5 ∧
    (travel_mode ≠ "Self" →
      calculate_minimum_duration source destination travel_mode ≤ 4) ∧
    (⟨"5-7 days", "7 days", 7⟩ : DurationOption) ∈
      get_feasible_durations source destination travel_mode ∧
    (⟨"1 week+", "10 days", 10⟩ : DurationOption) ∈
      get_feasible_durations source destination travel_mode ∧
    get_feasible_durations source destination travel_mode ≠ [] := by
  have key : ∀ dist : Nat,
      2 ≤ (if travel_mode = "Self" then
            if dist ≤ 300 then 2 else if dist ≤ 800 then 3
            else if dist ≤ 1500 then 4 else 5
          else if dist ≤ 500 then 2 else if dist ≤ 1200 then 3 else 4) ∧
      (if travel_mode = "Self" then
            if dist ≤ 300 then 2 else if dist ≤ 800 then 3
            else if dist ≤ 1500 then 4 else 5
          else if dist ≤ 500 then 2 else if dist ≤ 1200 then 3 else 4) ≤ 5 ∧
      (travel_mode ≠ "Self" →
        (if travel_mode = "Self" then
            if dist ≤ 300 then 2 else if dist ≤ 800 then 3
            else if dist ≤ 1500 then 4 else 5
          else if dist ≤ 500 then 2 else if dist ≤ 1200 then 3 else 4) ≤ 4) := by
    intro dist
    refine ⟨?_, ?_, fun h => ?_⟩ <;> [skip; skip; rw [if_neg h]] <;> split_ifs <;> omega
  have hcalc : calculate_minimum_duration source destination travel_mode =
      (if travel_mode = "Self" then
        if pyOrNat (pyOrOpt (lookupDist (pyLower source) (pyLower destination))
            (lookupDist (pyLower destination) (pyLower source))) 300 ≤ 300 then 2
        else if pyOrNat (pyOrOpt (lookupDist (pyLower source) (pyLower destination))
            (lookupDist (pyLower destination) (pyLower source))) 300 ≤ 800 then 3
        else if pyOrNat (pyOrOpt (lookupDist (pyLower source) (pyLower destination))
            (lookupDist (pyLower destination) (pyLower source))) 300 ≤ 1500 then 4
        else 5
      else if pyOrNat (pyOrOpt (lookupDist (pyLower source) (pyLower destination))
            (lookupDist (pyLower destination) (pyLower source))) 300 ≤ 500 then 2
        else if pyOrNat (pyOrOpt (lookupDist (pyLower source) (pyLower destination))
            (lookupDist (pyLower destination) (pyLower source))) 300 ≤ 1200 then 3
        else 4) := by
    simp only [calculate_minimum_duration]
  have hb : 2 ≤ calculate_minimum_duration source destination travel_mode ∧
      calculate_minimum_duration source destination travel_mode ≤ 5 := by
    rw [hcalc]
    exact ⟨(key _).1, (key _).2.1⟩
  have hns : travel_mode ≠ "Self" →
      calculate_minimum_duration source destination travel_mode ≤ 4 := by
    intro h
    rw [hcalc]
    exact (key _).2.2 h
  have h7 : (⟨"5-7 days", "7 days", 7⟩ : DurationOption) ∈
      get_feasible_durations source destination travel_mode := by
    simp only [get_feasible_durations, all_durations, List.mem_filter]
    refine ⟨by simp, by simp; omega⟩
  have h10 : (⟨"1 week+", "10 days", 10⟩ : DurationOption) ∈
      get_feasible_durations source destination travel_mode := by
    simp only [get_feasible_durations, all_durations, List.mem_filter]
    refine ⟨by simp, by simp; omega⟩
  refine ⟨hb.1, hb.2, hns, h7, h10, fun hnil => ?_⟩
  rw [hnil] at h7
  exact absurd h7 (List.not_mem_nil _)

/-- Witness for C9 at a concrete input (discharging the non-`Self`
hypothesis). -/
theorem calculate_minimum_duration_bounds_witness :
    2 ≤ calculate_minimum_duration "kerala" "goa" "Booking" ∧
    calculate_minimum_duration "kerala" "goa" "Booking" ≤ 4 ∧
    (⟨"5-7 days", "7 days", 7⟩ : DurationOption) ∈
      get_feasible_durations "kerala" "goa" "Booking" := by
  obtain ⟨h2, _, hns, h7, _, _⟩ :=
    calculate_minimum_duration_bounds "kerala" "goa" "Booking"
  exact ⟨h2, hns (by decide), h7⟩

/-! ## `validate_budget` lemmas -/

theorem theme_multiplier_eq (t : String) :
    dictGetD theme_multipliers t 1.2 = claimed_theme_multiplier t := by
  simp only [dictGetD, theme_multipliers, dictGet, claimed_theme_multiplier]
  by_cases h1 : "devotional" = t
  · rw [if_pos h1, if_pos h1.symm]
    rfl
  rw [if_neg h1, if_neg (show ¬t = "devotional" from fun hh => h1 hh.symm)]
  by_cases h2 : "cultural" = t
  · rw [if_pos h2, if_pos h2.symm]
    rfl
  rw [if_neg h2, if_neg (show ¬t = "cultural" from fun hh => h2 hh.symm)]
  by_cases h3 : "adventurous" = t
  · rw [if_pos h3, if_pos h3.symm]
    rfl
  rw [if_neg h3, if_neg (show ¬t = "adventurous" from fun hh => h3 hh.symm)]
  by_cases h4 : "nightlife" = t
  · rw [if_pos h4, if_pos h4.symm]
    rfl
  rw [if_neg h4, if_neg (show ¬t = "nightlife" from fun hh => h4 hh.symm)]
  by_cases h5 : "luxury" = t
  · rw [if_pos h5, if_pos h5.symm]
    rfl
  rw [if_neg h5, if_neg (show ¬t = "luxury" from fun hh => h5 hh.symm)]
  rfl

/-- `validate_budget` in closed form: the parsed budget and the
specification's minimum, branched on sufficiency. -/
theorem validate_budget_eq (i : TravelInput) :
    validate_budget i =
      (if claimed_budget_parse (i.budget.getD "0") ≥ claimed_minimum_budget i then
        { status := "sufficient",
          provided_budget := claimed_budget_parse (i.budget.getD "0"),
          minimum_required := claimed_minimum_budget i,
          buffer_amount := some (claimed_budget_parse (i.budget.getD "0") -
            claimed_minimum_budget i) }
      else
        { status := "insufficient",
          provided_budget := claimed_budget_parse (i.budget.getD "0"),
          minimum_required := claimed_minimum_budget i,
          shortfall := some (claimed_minimum_budget i -
            claimed_budget_parse (i.budget.getD "0")) }) := by
  simp only [validate_budget, claimed_minimum_budget, claimed_budget_parse,
    cleanBudget, theme_multiplier_eq]
  have harg :
      (if pyLower (i.travel_mode.getD "Self") = "self" then
          (firstNumberD1 (i.duration.getD "1") : ℚ) * 1500
        else (firstNumberD1 (i.duration.getD "1") : ℚ) * 3500) +
        (firstNumberD1 (i.duration.getD "1") : ℚ) * 2500 * 0.4 *
          claimed_theme_multiplier (pyLower (i.theme.getD "cultural")) +
        (firstNumberD1 (i.duration.getD "1") : ℚ) * 2500 * 0.3 +
        (firstNumberD1 (i.duration.getD "1") : ℚ) * 2500 * 0.3 *
          claimed_theme_multiplier (pyLower (i.theme.getD "cultural")) =
      (firstNumberD1 (i.duration.getD "1") : ℚ) *
          (if pyLower (i.travel_mode.getD "Self") = "self" then (1500 : ℚ) else 3500) +
        (firstNumberD1 (i.duration.getD "1") : ℚ) * 2500 * 0.4 *
          claimed_theme_multiplier (pyLower (i.theme.getD "cultural")) +
        (firstNumberD1 (i.duration.getD "1") : ℚ) * 2500 * 0.3 +
        (firstNumberD1 (i.duration.getD "1") : ℚ) * 2500 * 0.3 *
          claimed_theme_multiplier (pyLower (i.theme.getD "cultural")) := by
    split_ifs <;> ring
  rw [harg]

/-! ## Claim C1: the budget-sufficiency rule -/

/-- C1: `validate_budget` computes the specification's linear minimum
(theme multiplier, per-day transport cost by mode, 0.4/0.3/0.3 splits of
the ₹2500 base daily cost, truncated to an int) and reports
`sufficient` with `buffer_amount = budget - minimum` exactly when the
parsed budget reaches it, `insufficient` with the shortfall
otherwise. -/
theorem validate_budget_spec (i : TravelInput) :
    (validate_budget i).minimum_required = claimed_minimum_budget i ∧
    ((validate_budget i).status = "sufficient" ∧
        (validate_budget i).buffer_amount =
          some ((validate_budget i).provided_budget - claimed_minimum_budget i) ↔
      (validate_budget i).provided_budget ≥ claimed_minimum_budget i) ∧
    ((validate_budget i).status = "insufficient" ∧
        (validate_budget i).shortfall =
          some (claimed_minimum_budget i - (validate_budget i).provided_budget) ↔
      ¬ (validate_budget i).provided_budget ≥ claimed_minimum_budget i) := by
  rw [validate_budget_eq i]
  by_cases h : claimed_budget_parse (i.budget.getD "0") ≥ claimed_minimum_budget i <;>
    simp [h]

/-! ## Claim C10: the budget parser -/

/-- C10: the budget field is read by deleting `₹`, `R`, `s`, commas and
whitespace and concatenating every remaining digit run into one number
(so a range collapses to one huge amount and a decimal loses its point),
0 when no digit remains — in which case any positive minimum makes the
validation `insufficient`. -/
theorem validate_budget_parse_spec :
    (∀ i : TravelInput,
      (validate_budget i).provided_budget = claimed_budget_parse (i.budget.getD "0")) ∧
    claimed_budget_parse "15000-20000" = 1500020000 ∧
    claimed_budget_parse "2500.50" = 250050 ∧
    (∀ i : TravelInput, claimed_budget_parse (i.budget.getD "0") = 0 →
      0 < (validate_budget i).minimum_required →
      (validate_budget i).status = "insufficient") := by
  refine ⟨fun i => ?_, by decide, by decide, fun i h0 hpos => ?_⟩
  · rw [validate_budget_eq i]
    split_ifs <;> rfl
  · rw [validate_budget_eq i] at hpos ⊢
    split_ifs at hpos ⊢ with h
    · exfalso
      rw [h0] at h
      simp only at hpos
      omega
    · rfl

/-- Witness for C10: a digit-free budget string is parsed as 0 and
reported insufficient (3-day default-theme trip, positive minimum). -/
theorem validate_budget_parse_witness :
    (validate_budget { budget := some "no digits", duration := some "3" }).status =
      "insufficient" := by
  apply validate_budget_parse_spec.2.2.2
  · decide
  · rw [validate_budget_eq]
    have hmin : claimed_minimum_budget
        { budget := some "no digits", duration := some "3" } = 13050 := by
      simp only [claimed_minimum_budget, claimed_theme_multiplier]
      norm_num [show firstNumberD1 "3" = 3 from by decide,
        show pyLower "Self" = "self" from by decide,
        show pyLower "cultural" = "cultural" from by decide,
        show ¬("cultural" : String) = "devotional" from by decide]
    split_ifs <;> simp [hmin]

/-! ## Claim C3: LLM failure falls back to the template -/

/-- C3: when the budget validation is not `insufficient` and the LLM
round trip raises, `generate_personalized_itinerary` neither propagates
the exception nor retries the call (the result ignores every attempt
after the first): it returns `_create_fallback_itinerary`'s template —
status `fallback`, a `trip_overview` echoing the input fields, the
already-computed validations, and the fixed two-day placeholder
itinerary. -/
theorem generate_itinerary_fallback_spec (i : TravelInput) (now_iso err : String)
    (rest : List (Except String Val))
    (h : (validate_budget i).status ≠ "insufficient") :
    generate_personalized_itinerary i now_iso (.error err :: rest) =
      .fallback (create_fallback_itinerary i (validate_budget i)
        (validate_duration (i.duration.getD "3 days")) now_iso) ∧
    (∀ rest' : List (Except String Val),
      generate_personalized_itinerary i now_iso (.error err :: rest) =
        generate_personalized_itinerary i now_iso (.error err :: rest')) ∧
    (create_fallback_itinerary i (validate_budget i)
        (validate_duration (i.duration.getD "3 days")) now_iso).status = "fallback" ∧
    (create_fallback_itinerary i (validate_budget i)
        (validate_duration (i.duration.getD "3 days")) now_iso).trip_overview =
      { source := i.source.getD "", destination := i.destination.getD "Destination",
        travel_mode := i.travel_mode.getD "", theme := i.theme.getD "cultural",
        duration := i.duration.getD "3 days", budget := i.budget.getD "" } ∧
    (create_fallback_itinerary i (validate_budget i)
        (validate_duration (i.duration.getD "3 days")) now_iso).budget_validation =
      validate_budget i ∧
    (create_fallback_itinerary i (validate_budget i)
        (validate_duration (i.duration.getD "3 days")) now_iso).duration_validation =
      validate_duration (i.duration.getD "3 days") ∧
    (create_fallback_itinerary i (validate_budget i)
        (validate_duration (i.duration.getD "3 days")) now_iso).itinerary =
      [{ day := 1
         title := "Arrival and " ++ i.destination.getD "Destination" ++ " Exploration"
         activities :=
           ["Arrive at " ++ i.destination.getD "Destination", "Check into hotel",
            "Local " ++ i.theme.getD "cultural" ++ " site visit",
            "Dinner at local restaurant"] },
       { day := 2
         title := "Full Day " ++ pyTitle (i.theme.getD "cultural") ++ " Experience"
         activities :=
           ["Morning " ++ i.theme.getD "cultural" ++ " activity", "Local market visit",
            "Afternoon sightseeing", "Evening leisure time"] }] := by
  refine ⟨?_, fun rest' => rfl, rfl, rfl, rfl, rfl, rfl⟩
  simp only [generate_personalized_itinerary, List.head?]
  rw [if_neg h]

/-- Witness for C3: a concrete sufficient-budget trip whose LLM call
raises returns exactly the fallback template. -/
theorem generate_itinerary_fallback_witness :
    generate_personalized_itinerary
        { source := some "Kochi", destination := some "Munnar",
          travel_mode := some "Self", budget := some "50000",
          theme := some "cultural", duration := some "2 days" }
        "2025-01-01T00:00:00" [.error "APIError"] =
      .fallback (create_fallback_itinerary
        { source := some "Kochi", destination := some "Munnar",
          travel_mode := some "Self", budget := some "50000",
          theme := some "cultural", duration := some "2 days" }
        (validate_budget
          { source := some "Kochi", destination := some "Munnar",
            travel_mode := some "Self", budget := some "50000",
            theme := some "cultural", duration := some "2 days" })
        (validate_duration "2 days") "2025-01-01T00:00:00") := by
  exact (generate_itinerary_fallback_spec _ _ _ _ (by
    rw [validate_budget_eq]
    have hmin : claimed_minimum_budget
        { source := some "Kochi", destination := some "Munnar",
          travel_mode := some "Self", budget := some "50000",
          theme := some "cultural", duration := some "2 days" } = 8700 := by
      simp only [claimed_minimum_budget, claimed_theme_multiplier]
      norm_num [show firstNumberD1 "2 days" = 2 from by decide,
        show pyLower "Self" = "self" from by decide,
        show pyLower "cultural" = "cultural" from by decide,
        show ¬("cultural" : String) = "devotional" from by decide]
    dsimp only [Option.getD]
    rw [hmin, if_pos (by decide : claimed_budget_parse "50000" ≥ (8700 : Int))]
    decide)).1

/-! ## Claim C4: determinism of the heuristics -/

/-- C4 counterexample: `_create_fallback_itinerary` embeds
`datetime.now().isoformat()`, so two calls with equal program-level
arguments but different clock readings return different dicts — the
function is not deterministic as claimed. -/
theorem create_fallback_itinerary_not_deterministic :
    create_fallback_itinerary {}
        { status := "sufficient", provided_budget := 0, minimum_required := 0 }
        { status := "valid", validated_duration := some 3 }
        "2025-01-01T00:00:00" ≠
      create_fallback_itinerary {}
        { status := "sufficient", provided_budget := 0, minimum_required := 0 }
        { status := "valid", validated_duration := some 3 }
        "2025-01-01T00:00:01" := by
  decide

/-- C4 as amended: `calculate_minimum_duration`, `validate_budget` and
the two regex parsers are deterministic, and
`_create_fallback_itinerary` is deterministic once the
`datetime.now()` timestamp it embeds is fixed. -/
theorem heuristics_deterministic :
    (∀ a b : String × String × String, a = b →
      calculate_minimum_duration a.1 a.2.1 a.2.2 =
        calculate_minimum_duration b.1 b.2.1 b.2.2) ∧
    (∀ a b : TravelInput, a = b → validate_budget a = validate_budget b) ∧
    (∀ a b : String, a = b →
      parse_distance a = parse_distance b ∧ parse_duration a = parse_duration b) ∧
    (∀ a b : TravelInput × BudgetValidation × DurationValidation × String, a = b →
      create_fallback_itinerary a.1 a.2.1 a.2.2.1 a.2.2.2 =
        create_fallback_itinerary b.1 b.2.1 b.2.2.1 b.2.2.2) :=
  ⟨fun _ _ h => by rw [h], fun _ _ h => by rw [h],
   fun _ _ h => by rw [h]; exact ⟨rfl, rfl⟩, fun _ _ h => by rw [h]⟩

/-- Witness for the amended C4 at concrete equal arguments. -/
theorem heuristics_deterministic_witness :
    calculate_minimum_duration "kerala" "goa" "Self" =
      calculate_minimum_duration "kerala" "goa" "Self" ∧
    parse_duration "5h" = parse_duration "5h" :=
  ⟨heuristics_deterministic.1 ("kerala", "goa", "Self") ("kerala", "goa", "Self") rfl,
   (heuristics_deterministic.2.2.1 "5h" "5h" rfl).2⟩

/-! ## Claim C5: the saved-trips store -/

/-- C5: `save_trip` stores the record under the given id (the generated
`trip_<timestamp>` id when none, or an empty one, is given) and leaves
every other entry unchanged; `get_saved_trips` returns exactly the
stored records; `delete_trip` removes exactly the named entry when
present and answers 404 `Trip not found` with the store unchanged
otherwise. -/
theorem saved_trips_endpoints_spec :
    (∀ (store : TripStore) (request : SaveTripRequest) (ts c u : String),
      dictGet (save_trip store request ts c u).1 (save_trip store request ts c u).2.1 =
        some { id := (save_trip store request ts c u).2.1, name := request.name,
               trip_data := request.trip_data, created_at := c, updated_at := u } ∧
      (∀ k, k ≠ (save_trip store request ts c u).2.1 →
        dictGet (save_trip store request ts c u).1 k = dictGet store k) ∧
      (∀ s, request.id = some s → s ≠ "" → (save_trip store request ts c u).2.1 = s) ∧
      (request.id = none ∨ request.id = some "" →
        (save_trip store request ts c u).2.1 = "trip_" ++ ts)) ∧
    (∀ store : TripStore, get_saved_trips store = store.map Prod.snd ∧
      ∀ t, t ∈ get_saved_trips store ↔ ∃ k, (k, t) ∈ store) ∧
    (∀ (store : TripStore) (trip_id : String),
      ((dictGet store trip_id).isSome = true →
        (delete_trip store trip_id).2 = .ok "Trip deleted successfully" ∧
        ((store.map Prod.fst).Nodup →
          dictGet (delete_trip store trip_id).1 trip_id = none) ∧
        (∀ k, k ≠ trip_id →
          dictGet (delete_trip store trip_id).1 k = dictGet store k)) ∧
      ((dictGet store trip_id).isSome = false →
        delete_trip store trip_id = (store, .httpError 404 "Trip not found"))) := by
  refine ⟨fun store request ts c u => ⟨?_, fun k hk => ?_, fun s hs hne => ?_, fun hgen => ?_⟩,
    fun store => ⟨rfl, fun t => ?_⟩, fun store trip_id => ⟨fun h => ⟨?_, fun hnd => ?_, fun k hk => ?_⟩,
    fun h => ?_⟩⟩
  · exact dictGet_dictSet_self store _ _
  · exact dictGet_dictSet_ne store _ k _ hk
  · simp [save_trip, pyOrStr, hs, hne]
  · rcases hgen with hg | hg <;> simp [save_trip, pyOrStr, hg]
  · constructor
    · intro hmem
      obtain ⟨⟨k, v⟩, hkv, hv⟩ := List.mem_map.mp hmem
      subst hv
      exact ⟨k, hkv⟩
    · rintro ⟨k, hmem⟩
      exact List.mem_map.mpr ⟨(k, t), hmem, rfl⟩
  · simp [delete_trip, h]
  · simp only [delete_trip, h, if_true]
    exact dictGet_dictDel_self store trip_id hnd
  · simp only [delete_trip, h, if_true]
    exact dictGet_dictDel_ne store trip_id k hk
  · simp [delete_trip, h]

/-- Witness for C5: one saved trip, a 404 for a missing id, and the
deletion of the saved entry, on a concrete store. -/
theorem saved_trips_endpoints_witness :
    dictGet (save_trip [] { id := some "t1", name := "Goa trip", trip_data := .null }
        "123" "c" "u").1 "t1" =
      some { id := "t1", name := "Goa trip", trip_data := .null,
             created_at := "c", updated_at := "u" } ∧
    delete_trip (save_trip [] { id := some "t1", name := "Goa trip", trip_data := .null }
        "123" "c" "u").1 "zzz" =
      ((save_trip [] { id := some "t1", name := "Goa trip", trip_data := .null }
        "123" "c" "u").1, .httpError 404 "Trip not found") ∧
    dictGet (delete_trip (save_trip []
        { id := some "t1", name := "Goa trip", trip_data := .null } "123" "c" "u").1
        "t1").1 "t1" = none := by
  refine ⟨?_, ?_, ?_⟩
  · have h1 := (saved_trips_endpoints_spec.1 []
      { id := some "t1", name := "Goa trip", trip_data := .null } "123" "c" "u").1
    rw [show (save_trip [] { id := some "t1", name := "Goa trip", trip_data := .null }
      "123" "c" "u").2.1 = "t1" from rfl] at h1
    exact h1
  · exact (saved_trips_endpoints_spec.2.2 _ "zzz").2 rfl
  · have hspec := (saved_trips_endpoints_spec.2.2
      (save_trip [] { id := some "t1", name := "Goa trip", trip_data := .null }
        "123" "c" "u").1 "t1").1
    exact (hspec (by decide)).2.1 (by decide)

/-! ## Claim C6: totality of the text parsers -/

theorem isSome_false_eq_none {α : Type} {o : Option α}
    (h : o.isSome = false) : o = none := by
  cases o with
  | none => rfl
  | some v => simp [Option.isSome] at h

theorem ratOfFloatStr_nonneg (g : String) : 0 ≤ ratOfFloatStr g := by
  unfold ratOfFloatStr
  positivity

theorem ratOfFloatStr_zero : ratOfFloatStr "0" = 0 := by
  simp only [ratOfFloatStr]
  rw [show "0".data.takeWhile (· ≠ '.') = ['0'] from by decide,
    show ("0".data.dropWhile (· ≠ '.')).drop 1 = ([] : List Char) from by decide,
    show natOfDigits ['0'] = 0 from by decide,
    show natOfDigits [] = 0 from by decide]
  norm_num

/-- C6 counterexample: on `"0 km"` — a nonempty text that pattern 1 of
`_parse_distance` does match — the parser still returns 0.0, so its
returning 0.0 is not equivalent to "empty or no pattern matched". -/
theorem parse_distance_zero_on_match :
    parse_distance "0 km" = 0 ∧ ¬("0 km" = "" ∨ distancePatternMatches "0 km" = false) := by
  constructor
  · simp only [parse_distance]
    rw [if_neg (by decide : ¬("0 km" : String) = "")]
    rw [show research dpat1 (pyLower "0 km") = some [(1, "0")] from by decide]
    dsimp only
    rw [show stripCommas ((([(1, "0")] : List (Nat × String)).lookup 1).getD "") = "0"
      from by decide]
    exact ratOfFloatStr_zero
  · decide

/-- C6 as amended: both parsers are total — `_parse_distance` always
returns a non-negative number and returns 0.0 whenever the text is empty
or matches none of its patterns (though a matching `0 km` also yields
0.0), and `_parse_duration` returns `N/A` whenever the text is empty or
matches none of its patterns. -/
theorem parsers_total_spec (text : String) :
    0 ≤ parse_distance text ∧
    (text = "" ∨ distancePatternMatches text = false → parse_distance text = 0) ∧
    (text = "" ∨ durationPatternMatches text = false → parse_duration text = "N/A") := by
  refine ⟨?_, ?_, ?_⟩
  · by_cases he : text = ""
    · simp [parse_distance, he]
    · simp only [parse_distance, if_neg he]
      cases h1 : research dpat1 (pyLower text) with
      | some caps => exact ratOfFloatStr_nonneg _
      | none =>
        cases h2 : research dpat2 (pyLower text) with
        | some caps => exact ratOfFloatStr_nonneg _
        | none =>
          cases h3 : research dpat3 (pyLower text) with
          | some caps =>
            have := ratOfFloatStr_nonneg ((caps.lookup 1).getD "")
            have := ratOfFloatStr_nonneg ((caps.lookup 2).getD "")
            positivity
          | none =>
            cases h4 : research dpat4 (pyLower text) with
            | some caps => exact ratOfFloatStr_nonneg _
            | none => exact le_refl _
  · rintro (he | hnm)
    · simp [parse_distance, he]
    · by_cases he : text = ""
      · simp [parse_distance, he]
      · simp only [distancePatternMatches, Bool.or_eq_false_iff] at hnm
        simp only [parse_distance, if_neg he, isSome_false_eq_none hnm.1.1.1,
          isSome_false_eq_none hnm.1.1.2, isSome_false_eq_none hnm.1.2,
          isSome_false_eq_none hnm.2]
  · rintro (he | hnm)
    · simp [parse_duration, he]
    · by_cases he : text = ""
      · simp [parse_duration, he]
      · simp only [durationPatternMatches, Bool.or_eq_false_iff] at hnm
        simp only [parse_duration, if_neg he, isSome_false_eq_none hnm.1.1,
          isSome_false_eq_none hnm.1.2, isSome_false_eq_none hnm.2]

/-- Witness for the amended C6 on a concrete pattern-free text. -/
theorem parsers_total_witness :
    0 ≤ parse_distance "hello" ∧ parse_distance "hello" = 0 ∧
      parse_duration "hello" = "N/A" := by
  obtain ⟨hn, hd, hu⟩ := parsers_total_spec "hello"
  exact ⟨hn, hd (Or.inr (by decide)), hu (Or.inr (by decide))⟩

/-! ## Claim C7: shape of the transformed frontend response -/

/-- C7: the transform always emits the ten fixed top-level keys, and
`trip_overview.budget_status` is always `sufficient` or `insufficient`
(any other backend status is remapped by comparing the provided budget
against the minimum required). -/
theorem transform_spec (backend_result : BackendResult)
    (user_input : UserInputDict ⊕ String) :
    (transform_backend_response_to_frontend_format backend_result user_input).map
        Prod.fst =
      ["trip_overview", "destinations", "hotels", "restaurants", "transportation",
       "budget_breakdown", "weather_info", "daily_itinerary", "booking_summary",
       "sources"] ∧
    (tripBudgetStatus
        (transform_backend_response_to_frontend_format backend_result user_input) =
        some (.s "sufficient") ∨
      tripBudgetStatus
        (transform_backend_response_to_frontend_format backend_result user_input) =
        some (.s "insufficient")) := by
  constructor
  · rfl
  · have hred : tripBudgetStatus
        (transform_backend_response_to_frontend_format backend_result user_input) =
        some (.s
          (if (backend_result.budget_validation.getD {}).status.getD "sufficient" =
                "sufficient" ∨
              (backend_result.budget_validation.getD {}).status.getD "sufficient" =
                "insufficient" then
            (backend_result.budget_validation.getD {}).status.getD "sufficient"
          else if (backend_result.budget_validation.getD {}).provided_budget.getD 0 ≥
              (backend_result.budget_validation.getD {}).minimum_required.getD 0 then
            "sufficient"
          else "insufficient")) := rfl
    rw [hred]
    split_ifs with hc hge
    · rcases hc with h | h <;> rw [h]
      · exact Or.inl rfl
      · exact Or.inr rfl
    · exact Or.inl rfl
    · exact Or.inr rfl

end TravelBuddy
